import Mathlib

set_option linter.unusedVariables false

/-!
Verification of the sims4-mod-analyzer decision pipeline.

The TypeScript sources are shallowly embedded: each Lean definition mirrors one
source function (file and line references in the doc comments).  JavaScript
numbers are modelled as `ℚ`, `string | null` as `Option String`, records as
association lists, and JavaScript string truthiness (`""` and `null` are both
falsy) through the `truthyOr` helper.  Platform facilities that are not part of
the repository (the WHATWG `URL` parser, `crypto.sha256`) are modelled by
executable Lean functions that are documented as models.
-/

namespace ModAnalyzer

/-- JavaScript `a || b` for `a : string | null`: returns `b` when `a` is
`null` or the empty string (both falsy). -/
def truthyOr (a : Option String) (b : String) : String :=
  match a with
  | none => b
  | some s => if s = "" then b else s

/-- JavaScript string truthiness: non-null and non-empty. -/
def truthyStr (a : Option String) : Bool :=
  match a with
  | none => false
  | some s => s ≠ ""

/-- ASCII lowercase of one character (models `String.prototype.toLowerCase`
for the ASCII range actually exercised by the pipeline). -/
def jsLowerChar (c : Char) : Char :=
  if 'A' ≤ c ∧ c ≤ 'Z' then Char.ofNat (c.toNat + 32) else c

/-- Lowercase a string character by character. -/
def jsLower (s : String) : String :=
  ⟨s.data.map jsLowerChar⟩

/-- Characters matched by the JavaScript `\s` class as used here. -/
def isJsSpace (c : Char) : Bool :=
  c = ' ' ∨ c = '\t' ∨ c = '\n' ∨ c = '\r'

/-- Characters matched by the JavaScript `\w` class: ASCII letters, digits
and underscore. -/
def isJsWord (c : Char) : Bool :=
  ('a' ≤ c ∧ c ≤ 'z') ∨ ('A' ≤ c ∧ c ≤ 'Z') ∨ ('0' ≤ c ∧ c ≤ '9') ∨ c = '_'

/-- Drop leading characters satisfying `p`. -/
def dropWhileP (p : Char → Bool) (l : List Char) : List Char :=
  l.dropWhile p

/-- JavaScript `String.prototype.trim` restricted to the `\s` class above. -/
def jsTrim (s : String) : String :=
  ⟨(dropWhileP isJsSpace ((dropWhileP isJsSpace s.data.reverse)).reverse)⟩

/-- Collapse every maximal run of whitespace to a single space, as
`replace(/\s+/g, " ")` does. -/
def collapseSpaces (l : List Char) : List Char :=
  l.foldr
    (fun c acc =>
      if isJsSpace c then
        match acc with
        | ' ' :: _ => acc
        | _ => ' ' :: acc
      else c :: acc)
    []

/-- Split a character list at separators satisfying `p`, keeping the
(non-empty and empty) chunks; models splitting on a `[..]+` regex once empty
chunks are filtered by the caller. -/
def splitOnPred (p : Char → Bool) (l : List Char) : List String :=
  match l with
  | [] => [""]
  | c :: rest =>
    let tail := splitOnPred p rest
    if p c then
      "" :: tail
    else
      match tail with
      | [] => [⟨[c]⟩]
      | t :: ts => (⟨c :: t.data⟩ : String) :: ts

/-- Substring containment test on strings (models `String.prototype.includes`). -/
def strIncludes (s pat : String) : Bool :=
  go s.data
where
  go : List Char → Bool
  | [] => pat.data.isPrefixOf []
  | c :: rest => pat.data.isPrefixOf (c :: rest) || go rest

/-- JavaScript `x.toFixed(0)` for the non-negative rationals produced by the
pipeline: round half away from zero to an integer and print it. -/
def toFixed0 (q : ℚ) : String :=
  toString (⌊q + 1/2⌋ : ℤ)

-- ─────────────────────────────────────────────────────────
-- Domain model (src/domain/identity.ts, src/domain/snapshot.ts,
-- src/domain/analyzerJsonOutput.ts)
-- ─────────────────────────────────────────────────────────

/-- `Identity` (src/domain/identity.ts): the normalized query signature. -/
structure Identity where
  url : String
  domain : String
  urlSlug : String
  pageTitle : Option String
  ogTitle : Option String
  ogSite : Option String
  creator : Option String
  isBlocked : Bool
  fallbackLabel : String
  deriving Repr, DecidableEq

/-- `NotionPage` (src/domain/snapshot.ts): one catalog entry; `_score` and
`_reasons` are the optional fields attached during Phase 2 scoring. -/
structure NotionPage where
  notion_id : String
  url : String
  title : Option String
  filename : Option String
  creator : Option String
  created_time : String
  last_edited_time : String
  _score : Option ℚ
  _reasons : Option (List String)
  deriving Repr, DecidableEq

/-- Pipeline phases (src/domain/decision.ts / analyzerJsonOutput.ts). -/
inductive Phase where
  | PHASE_0
  | PHASE_0_5
  | PHASE_1
  | PHASE_2
  | PHASE_2_5
  | PHASE_3
  | REJECTED_404
  | PENDING_HUMAN
  deriving Repr, DecidableEq

/-- Official analyzer results (src/domain/analyzerJsonOutput.ts). -/
inductive AnalyzerResult where
  | FOUND
  | AMBIGUOUS
  | NOTFOUND
  | REJECTED_404
  deriving Repr, DecidableEq

/-- The `Decision` record produced by Phase 2 (src/domain/decision.ts,
fields restricted to the ones the fuzzy stage writes). -/
structure Decision where
  result : AnalyzerResult
  phaseResolved : Phase
  reason : String
  notionId : Option String
  notionUrl : Option String
  displayName : Option String
  phase2Candidates : Option ℕ
  deriving Repr, DecidableEq

-- ─────────────────────────────────────────────────────────
-- Platform model: the WHATWG URL parser
-- ─────────────────────────────────────────────────────────

/-- Parsed URL components, as exposed by the platform `URL` object. -/
structure UrlParts where
  scheme : String
  host : String
  port : String
  pathname : String
  search : String
  deriving Repr, DecidableEq

/-- Split a character list at the first character satisfying `p`;
the separator is kept at the head of the second component. -/
def breakAt (p : Char → Bool) (l : List Char) : List Char × List Char :=
  (l.takeWhile (fun c => ¬ p c), l.dropWhile (fun c => ¬ p c))

/-- Model of the platform WHATWG `new URL(s)` parser for the absolute
http/https URL shapes this pipeline handles: lowercased scheme and hostname,
default ports elided, pathname defaulting to "/", fragment dropped.
Returns `none` where `new URL` would throw. -/
def parseUrl (s : String) : Option UrlParts :=
  let chars := (jsTrim s).data
  let lowered := jsLower ⟨chars.takeWhile (fun c => c ≠ ':')⟩
  if lowered ≠ "http" ∧ lowered ≠ "https" then none
  else
    let afterScheme := chars.drop (lowered.data.length)
    if ¬ (":".data ++ "//".data).isPrefixOf afterScheme then none
    else
      let rest := afterScheme.drop 3
      let (authority, pathq) := breakAt (fun c => c = '/' ∨ c = '?' ∨ c = '#') rest
      let (hostPort, _) := breakAt (fun c => c = '@') authority
      -- no userinfo appears in this pipeline's URLs
      let (hostCs, portCs) := breakAt (fun c => c = ':') hostPort
      let host := jsLower ⟨hostCs⟩
      let port0 : String := ⟨portCs.drop 1⟩
      let port :=
        if (lowered = "https" ∧ port0 = "443") ∨ (lowered = "http" ∧ port0 = "80")
        then "" else port0
      if host = "" then none
      else
        let (pathCs, afterPath) := breakAt (fun c => c = '?' ∨ c = '#') pathq
        let pathname : String := if pathCs = [] then "/" else ⟨pathCs⟩
        let (searchCs, _) := breakAt (fun c => c = '#') afterPath
        let search : String :=
          if searchCs.take 1 = ['?'] ∧ searchCs.drop 1 ≠ [] then ⟨searchCs.drop 1⟩ else ""
        some { scheme := lowered, host := host, port := port,
               pathname := pathname, search := search }

/-- Strip one leading `www.` from a hostname (`replace(/^www\./, "")`). -/
def stripWww (h : String) : String :=
  if "www.".data.isPrefixOf h.data then ⟨h.data.drop 4⟩ else h

-- ─────────────────────────────────────────────────────────
-- DeterministicMatcher: Phase 0.5 slug matching (src/main.ts)
-- ─────────────────────────────────────────────────────────

/-- Keep only the characters the slug regex `[^a-z0-9\-]` retains:
lowercase letters, digits and hyphen. -/
def isSlugChar (c : Char) : Bool :=
  ('a' ≤ c ∧ c ≤ 'z') ∨ ('0' ≤ c ∧ c ≤ '9') ∨ c = '-'

/-- `extractFinalSlug` (src/main.ts lines 475-492): last non-empty path
segment, lowercased, with every character outside `a-z0-9-` removed, plus
the `www.`-stripped lowercased domain; `none` for malformed URLs or URLs
without a usable slug. -/
def extractFinalSlug (rawUrl : String) : Option (String × String) :=
  match parseUrl rawUrl with
  | none => none
  | some u =>
    let domain := jsLower (stripWww u.host)
    let parts := (splitOnPred (fun c => c = '/') u.pathname.data).filter (fun t => t ≠ "")
    match parts.getLast? with
    | none => none
    | some lastSeg =>
      let slug : String := ⟨(jsLower lastSeg).data.filter isSlugChar⟩
      if slug = "" then none else some (slug, domain)

/-- The filter predicate of the Phase 0.5 slug match (src/main.ts lines
731-736): the page has a (truthy) URL whose final slug equals `slug`. -/
def sharesFinalSlug (slug : String) (p : NotionPage) : Bool :=
  (p.url != "") &&
  match extractFinalSlug p.url with
  | none => false
  | some s2 => s2.1 == slug

/-- The Phase 0.5 slug-match stage (src/main.ts lines 725-746): collect the
catalog entries whose URL yields the input slug and accept only a unique
match. -/
def phase05Match (inputUrl : String) (pages : List NotionPage) : Option NotionPage :=
  match extractFinalSlug inputUrl with
  | none => none
  | some sd =>
    let slugMatches := pages.filter (sharesFinalSlug sd.1)
    if slugMatches.length = 1 then slugMatches.head? else none

/-- Modelled from the spec: the slug function as the claim words it — last
non-empty path segment, lowercased, with every non-alphanumeric character
(hyphens included) stripped.  Used only to compare the claim against the
code, which keeps hyphens. -/
def slugSpecStripNonAlphanumeric (rawUrl : String) : Option String :=
  match parseUrl rawUrl with
  | none => none
  | some u =>
    let parts := (splitOnPred (fun c => c = '/') u.pathname.data).filter (fun t => t ≠ "")
    match parts.getLast? with
    | none => none
    | some lastSeg =>
      let slug : String :=
        ⟨(jsLower lastSeg).data.filter (fun c => ('a' ≤ c ∧ c ≤ 'z') ∨ ('0' ≤ c ∧ c ≤ '9'))⟩
      if slug = "" then none else some slug

-- ─────────────────────────────────────────────────────────
-- FuzzyScorer: Phase 2 (src/phase2/searchNotionCache.ts)
-- ─────────────────────────────────────────────────────────

def THRESHOLD_FOUND : ℚ := 0.48

def THRESHOLD_CANDIDATE : ℚ := 0.28

def GAP_AMBIGUOUS : ℚ := 0.15

def W_TITLE : ℚ := 0.60

def W_CREATOR : ℚ := 0.05

def W_SLUG : ℚ := 0.20

def DOMAIN_BONUS : ℚ := 0.05

/-- `normalizeTitle` (searchNotionCache.ts lines 266-273): lowercase, drop
quote characters, drop everything outside `\w\s-`, collapse whitespace,
trim. -/
def normalizeTitle (title : String) : String :=
  let noQuotes := (jsLower title).data.filter
    (fun c => ¬ (c = '\'' ∨ c = '"' ∨ c = '«' ∨ c = '»'))
  let wordOnly := noQuotes.filter (fun c => isJsWord c ∨ isJsSpace c ∨ c = '-')
  jsTrim ⟨collapseSpaces wordOnly⟩

def stopwords : List String :=
  ["the", "and", "for", "with", "mod", "mods", "pack", "set",
   "addon", "add-on", "download", "sims", "sims4", "cc"]

/-- `tokenize` (lines 275-291): split the normalized text on whitespace,
hyphen, underscore and slash; keep tokens of length at least 3 that are not
stopwords; collect them as a set (only set sizes are consumed downstream,
so a `Finset` is a faithful model of the JS `Set`). -/
def tokenize (text : String) : Finset String :=
  ((splitOnPred (fun c => isJsSpace c ∨ c = '-' ∨ c = '_' ∨ c = '/')
      (normalizeTitle text).data).filter
    (fun t => decide (3 ≤ t.length ∧ ¬ t ∈ stopwords))).toFinset

/-- `intersectionSize` (lines 293-297). -/
def intersectionSize (setA setB : Finset String) : ℕ :=
  (setA ∩ setB).card

/-- `unionSize` (lines 299-301). -/
def unionSize (setA setB : Finset String) : ℕ :=
  (setA ∪ setB).card

/-- One DP row update for `levenshteinDistance`: `diag` is the previous-row
entry at `j-1`, `left` the freshly computed entry at `j-1`, and the last
argument the tail of the previous row from index `j` on. -/
def levRow (c : Char) : List Char → ℕ → ℕ → List ℕ → List ℕ
  | [], _, _, _ => []
  | _ :: _, _, _, [] => []
  | y :: ys, diag, left, pj :: prest =>
    let v := if c = y then diag else 1 + min (min diag pj) left
    v :: levRow c ys pj v prest

/-- `levenshteinDistance` (lines 313-332): classic row-by-row
dynamic-programming edit distance. -/
def levenshteinDistance (s1 s2 : String) : ℕ :=
  let ys := s2.data
  let final := s1.data.foldl
    (fun (st : ℕ × List ℕ) c =>
      let i := st.1 + 1
      match st.2 with
      | [] => (i, [])
      | r0 :: rest => (i, i :: levRow c ys r0 i rest))
    (0, List.range (ys.length + 1))
  final.2.getLastD 0

/-- `calculateSimilarity` (lines 303-311): normalized edit-distance
similarity (JS numbers modelled as ℚ). -/
def calculateSimilarity (s1 s2 : String) : ℚ :=
  let longer := if s1.length > s2.length then s1 else s2
  let shorter := if s1.length > s2.length then s2 else s1
  if longer.length = 0 then 1
  else ((longer.length : ℚ) - levenshteinDistance longer shorter) / longer.length

/-- `extractDomain` (lines 334-341): hostname with a leading `www.`
stripped, or `""` for malformed URLs. -/
def extractDomain (url : String) : String :=
  match parseUrl url with
  | none => ""
  | some u => stripWww u.host

def commonPlatforms : List String :=
  ["curseforge.com", "patreon.com", "itch.io", "github.com", "modthesims.info"]

/-- `looseDomainMatch` (lines 343-361). -/
def looseDomainMatch (inputDomain pageDomain : String) : Bool :=
  let n0 := jsLower (stripWww inputDomain)
  let n1 := jsLower (stripWww pageDomain)
  if n0 = n1 then true
  else commonPlatforms.any (fun platform => strIncludes n0 platform && strIncludes n1 platform)

/-- The search title used by Phase 2 (lines 46-50): `pageTitle || ogTitle
|| urlSlug || ""` with JavaScript truthiness. -/
def searchTitleOf (identity : Identity) : String :=
  truthyOr identity.pageTitle (truthyOr identity.ogTitle identity.urlSlug)

/-- The search creator (line 53): `identity.creator || ""`. -/
def searchCreatorOf (identity : Identity) : String :=
  truthyOr identity.creator ""

/-- Result of the Phase 2 scoring loop: either a near-exact-title early
exit on one page, or the admitted scored candidates in catalog order. -/
inductive ScanOut where
  | earlyExit (page : NotionPage)
  | scored (candidates : List NotionPage)
  deriving Repr, DecidableEq

/-- Factor 1, title (lines 114-135): token-overlap fallback when the
edit-distance similarity is low, weight `W_TITLE`. -/
def scoreTitlePart (searchTokens : Finset String) (notionTitle : String)
    (titleSimilarity : ℚ) : ℚ × List String :=
  let titleReasons : List String :=
    if 0.40 < titleSimilarity then
      ["title:" ++ toFixed0 (titleSimilarity * 100) ++ "%"]
    else []
  if titleSimilarity < 0.60 then
    let notionTokens := tokenize notionTitle
    let overlap := intersectionSize searchTokens notionTokens
    let union := unionSize searchTokens notionTokens
    if 0 < union then
      let tokenOverlapScore : ℚ := (overlap : ℚ) / (union : ℚ)
      if 0.50 ≤ tokenOverlapScore then
        (tokenOverlapScore * W_TITLE,
         ["tokens:" ++ toFixed0 (tokenOverlapScore * 100) ++ "% (" ++
          toString overlap ++ "/" ++ toString union ++ ")"])
      else
        (titleSimilarity * W_TITLE, titleReasons)
    else (titleSimilarity * W_TITLE, [])
  else
    (titleSimilarity * W_TITLE, titleReasons)

/-- Factor 2, creator (lines 137-147): only when both sides are non-empty,
weight `W_CREATOR`. -/
def scoreCreatorPart (searchCreator notionCreator : String) : ℚ × List String :=
  if searchCreator ≠ "" ∧ notionCreator ≠ "" then
    let creatorSimilarity :=
      calculateSimilarity (normalizeTitle searchCreator) (normalizeTitle notionCreator)
    (creatorSimilarity * W_CREATOR,
     if 0.60 < creatorSimilarity then
       ["creator:" ++ toFixed0 (creatorSimilarity * 100) ++ "%"]
     else [])
  else (0, [])

/-- Factor 3, slug-token overlap (lines 149-164), weight `W_SLUG`. -/
def scoreSlugPart (searchSlug notionTitle : String) : ℚ × List String :=
  if searchSlug ≠ "" ∧ notionTitle ≠ "" then
    let slugTokens := tokenize searchSlug
    let notionTokens := tokenize notionTitle
    let overlap := intersectionSize slugTokens notionTokens
    let union := unionSize slugTokens notionTokens
    if 0 < union then
      let slugTokenScore : ℚ := (overlap : ℚ) / (union : ℚ)
      if 0.50 < slugTokenScore then
        (slugTokenScore * W_SLUG,
         ["slugTokens:" ++ toFixed0 (slugTokenScore * 100) ++ "%"])
      else (0, [])
    else (0, [])
  else (0, [])

/-- Factor 4, fixed domain bonus (lines 166-173). -/
def scoreDomainPart (searchDomain : String) (page : NotionPage) : ℚ × List String :=
  if searchDomain ≠ "" ∧ page.url ≠ "" then
    if looseDomainMatch searchDomain (extractDomain page.url) then
      (DOMAIN_BONUS, ["domain✓"])
    else (0, [])
  else (0, [])

/-- The weighted score and reasons of one page (lines 114-173), computed
when the near-exact-title check did not fire. -/
def scorePage (searchCreator searchDomain searchSlug : String)
    (searchTokens : Finset String) (page : NotionPage) (notionTitle : String)
    (titleSimilarity : ℚ) : ℚ × List String :=
  let notionCreator := truthyOr page.creator ""
  let p1 := scoreTitlePart searchTokens notionTitle titleSimilarity
  let p2 := scoreCreatorPart searchCreator notionCreator
  let p3 := scoreSlugPart searchSlug notionTitle
  let p4 := scoreDomainPart searchDomain page
  (p1.1 + p2.1 + p3.1 + p4.1, p1.2 ++ p2.2 ++ p3.2 ++ p4.2)

/-- The Phase 2 scoring pass (lines 77-183): for each catalog page with a
usable display name, either exit early on a near-exact title match or
admit the page when its weighted score clears the admission floor. -/
def scanGo (searchTitle searchCreator searchDomain searchSlug : String)
    (searchTokens : Finset String) : List NotionPage → ScanOut
  | [] => .scored []
  | page :: rest =>
    let notionTitle := truthyOr page.title (truthyOr page.filename "")
    if notionTitle = "" then
      scanGo searchTitle searchCreator searchDomain searchSlug searchTokens rest
    else
      let titleSimilarity :=
        calculateSimilarity (normalizeTitle searchTitle) (normalizeTitle notionTitle)
      if 0.98 ≤ titleSimilarity then .earlyExit page
      else
        let sr := scorePage searchCreator searchDomain searchSlug
          searchTokens page notionTitle titleSimilarity
        if THRESHOLD_CANDIDATE < sr.1 then
          match scanGo searchTitle searchCreator searchDomain searchSlug searchTokens rest with
          | .earlyExit q => .earlyExit q
          | .scored cs =>
            .scored ({ page with _score := some sr.1, _reasons := some sr.2 } :: cs)
        else
          scanGo searchTitle searchCreator searchDomain searchSlug searchTokens rest

/-- The scoring pass with its context extracted from the identity
(lines 45-75). -/
def scanPages (identity : Identity) (pages : List NotionPage) : ScanOut :=
  scanGo (searchTitleOf identity) (searchCreatorOf identity) identity.domain
    identity.urlSlug (tokenize (searchTitleOf identity)) pages

/-- Score of a candidate with the JS `?._score ?? 0` fallback
(phase25Rescue.ts lines 55-58 and searchNotionCache.ts line 189). -/
def scoreOf (p : NotionPage) : ℚ :=
  p._score.getD 0

/-- The stable descending sort `candidates.sort((a, b) => b._score - a._score)`
(line 186).  The ECMAScript sort is stable, and a stable sort under a
consistent comparator has a unique result, so insertion sort is a faithful
model. -/
def sortByScoreDesc (l : List NotionPage) : List NotionPage :=
  List.insertionSort (fun a b => scoreOf b ≤ scoreOf a) l

structure Phase2Result where
  decision : Decision
  candidates : List NotionPage
  deriving Repr, DecidableEq

/-- `bestScore` (line 189): `candidates[0]?._score ?? 0`. -/
def phase2BestScore (sorted : List NotionPage) : ℚ :=
  ((sorted.head?).bind NotionPage._score).getD 0

/-- `secondBestScore` (line 190): `candidates[1]?._score ?? 0`. -/
def phase2SecondScore (sorted : List NotionPage) : ℚ :=
  ((sorted.get? 1).bind NotionPage._score).getD 0

/-- `gap` (line 191). -/
def phase2Gap (sorted : List NotionPage) : ℚ :=
  phase2BestScore sorted - phase2SecondScore sorted

/-- The decision step of Phase 2 (lines 185-253) on the sorted admitted
candidates. -/
def phase2Decide (searchTitle : String) (sorted : List NotionPage) : Phase2Result :=
  let bestScore : ℚ := phase2BestScore sorted
  let secondBestScore : ℚ := phase2SecondScore sorted
  let gap := bestScore - secondBestScore
  let top5 := sorted.take 5
  if 0 < sorted.length ∧ THRESHOLD_FOUND ≤ bestScore then
    if 1 < sorted.length ∧ gap < GAP_AMBIGUOUS then
      { decision :=
          { result := .AMBIGUOUS, phaseResolved := .PHASE_2,
            reason := "⚠️ Multiple matches found with similar scores (gap:" ++
              toFixed0 (gap * 100) ++ "%). Possible duplicates in Notion.",
            notionId := none, notionUrl := none, displayName := none,
            phase2Candidates := some sorted.length },
        candidates := top5 }
    else
      let best := sorted.headD
        { notion_id := "", url := "", title := none, filename := none,
          creator := none, created_time := "", last_edited_time := "",
          _score := none, _reasons := none }
      { decision :=
          { result := .FOUND, phaseResolved := .PHASE_2,
            reason := "🎯 Fuzzy match (score:" ++ toFixed0 (bestScore * 100) ++
              "%, gap:" ++ toFixed0 (gap * 100) ++ "%) → " ++
              (match best._reasons with
               | some rs => String.intercalate ", " rs
               | none => "no reasons"),
            notionId := some best.notion_id, notionUrl := some best.url,
            displayName := some (truthyOr best.title (truthyOr best.filename "Unknown")),
            phase2Candidates := some sorted.length },
        candidates := top5 }
  else
    { decision :=
        { result := .NOTFOUND, phaseResolved := .PHASE_2,
          reason := "❌ No confident match for \"" ++ searchTitle ++ "\". Best: " ++
            (if bestScore ≠ 0 then toFixed0 (bestScore * 100) ++ "%" else "N/A") ++
            " (threshold: " ++ toFixed0 (THRESHOLD_FOUND * 100) ++ "%)",
          notionId := none, notionUrl := none, displayName := none,
          phase2Candidates := some sorted.length },
      candidates := top5 }

/-- `searchNotionCache` (lines 39-254): the Phase 2 fuzzy scorer. -/
def searchNotionCache (identity : Identity) (pages : List NotionPage) : Phase2Result :=
  let searchTitle := searchTitleOf identity
  if searchTitle = "" then
    { decision :=
        { result := .NOTFOUND, phaseResolved := .PHASE_2, reason := "...",
          notionId := none, notionUrl := none, displayName := none,
          phase2Candidates := none },
      candidates := [] }
  else
    match scanPages identity pages with
    | .earlyExit page =>
      let notionTitle := truthyOr page.title (truthyOr page.filename "")
      { decision :=
          { result := .FOUND, phaseResolved := .PHASE_2,
            reason := "🎯 Exact name match: \"" ++ searchTitle ++ "\" ≈ \"" ++
              notionTitle ++ "\"",
            notionId := some page.notion_id, notionUrl := some page.url,
            displayName := some notionTitle, phase2Candidates := some 1 },
        candidates := [page] }
    | .scored cs => phase2Decide searchTitle (sortByScoreDesc cs)

-- ─────────────────────────────────────────────────────────
-- CandidatePlanner: Phase 2.5 (src/phase2/phase25Rescue.ts)
-- ─────────────────────────────────────────────────────────

inductive Phase25Mode where
  | DISAMBIGUATE
  | CONFIRM_SINGLE_WEAK
  | SKIP
  deriving Repr, DecidableEq

structure Phase2_5Plan where
  shouldCallPhase3 : Bool
  mode : Phase25Mode
  reason : String
  phase3Candidates : List NotionPage
  bestScore : ℚ
  secondBestScore : ℚ
  gap : ℚ
  totalCandidatesScored : ℕ
  deriving Repr, DecidableEq

inductive Phase25SelectionRule where
  | NONE
  | PLAN_TOP5
  | SANITY_TOPK
  | CONFIRM_SINGLE_WEAK
  deriving Repr, DecidableEq

structure Phase25RescueResult where
  candidates : List NotionPage
  plan : Phase2_5Plan
  selectionRule : Phase25SelectionRule
  deriving Repr, DecidableEq

/-- `topK` (phase25Rescue.ts lines 64-66). -/
def topK (pages : List NotionPage) (k : ℕ) : List NotionPage :=
  pages.take k

/-- `phase25Rescue` (phase25Rescue.ts lines 91-187) with the default
options (`strongThreshold` 0.48, `maxCandidates` 5). -/
def phase25Rescue (phase2Candidates : List NotionPage) : Phase25RescueResult :=
  let strongThreshold : ℚ := 0.48
  let maxCandidates : ℕ := 5
  let total := phase2Candidates.length
  let ordered := sortByScoreDesc phase2Candidates
  let bestScore : ℚ := match ordered.head? with | some p => scoreOf p | none => 0
  let secondBestScore : ℚ := match ordered.get? 1 with | some p => scoreOf p | none => 0
  let gap := bestScore - secondBestScore
  if ordered.length = 0 then
    { candidates := [], selectionRule := .NONE,
      plan :=
        { shouldCallPhase3 := false, mode := .SKIP,
          reason := "No candidates from Phase 2 (nothing to confirm/disambiguate).",
          phase3Candidates := [], bestScore := bestScore,
          secondBestScore := secondBestScore, gap := gap,
          totalCandidatesScored := total } }
  else if ordered.length = 1 then
    if strongThreshold ≤ bestScore then
      { candidates := topK ordered 1, selectionRule := .PLAN_TOP5,
        plan :=
          { shouldCallPhase3 := false, mode := .SKIP,
            reason := "Single strong candidate; Phase 2 already effectively confident.",
            phase3Candidates := topK ordered 1, bestScore := bestScore,
            secondBestScore := secondBestScore, gap := gap,
            totalCandidatesScored := total } }
    else
      { candidates := topK ordered 1, selectionRule := .CONFIRM_SINGLE_WEAK,
        plan :=
          { shouldCallPhase3 := true, mode := .CONFIRM_SINGLE_WEAK,
            reason := "Single weak candidate; confirm in Phase 3 (Notion live by pageId).",
            phase3Candidates := topK ordered 1, bestScore := bestScore,
            secondBestScore := secondBestScore, gap := gap,
            totalCandidatesScored := total } }
  else
    let clipped := if maxCandidates < ordered.length then topK ordered maxCandidates else ordered
    let rule : Phase25SelectionRule :=
      if maxCandidates < ordered.length then .SANITY_TOPK else .PLAN_TOP5
    { candidates := clipped, selectionRule := rule,
      plan :=
        { shouldCallPhase3 := true, mode := .DISAMBIGUATE,
          reason := "Multiple candidates; disambiguate in Phase 3 (Notion live by pageId).",
          phase3Candidates := clipped, bestScore := bestScore,
          secondBestScore := secondBestScore, gap := gap,
          totalCandidatesScored := total } }

-- ─────────────────────────────────────────────────────────
-- ArbitrationGate: Phase 3 (src/phase3/aiDisambiguate.ts and the
-- Phase 3 tail of src/main.ts)
-- ─────────────────────────────────────────────────────────

def AI_THRESHOLD : ℚ := 0.55

def POLICY_VERSION : String := "phase3-ai-v1"

structure AIDisambiguationResult where
  matchedIndex : ℤ
  confidence : ℚ
  reason : String
  deriving Repr, DecidableEq

/-- Model of the outcome of the external similarity-oracle call inside
`aiDisambiguate` (the `fetch` of the HF inference API): the promise rejects
(network/auth failure), resolves with a non-ok HTTP status, or resolves
with the parsed BART payload — a best-first (label, score) list. -/
inductive OracleOutcome where
  | netError (message : String)
  | httpError (status : ℕ) (body : String)
  | ok (data : List (String × ℚ))
  deriving Repr, DecidableEq

/-- `buildInputText` (aiDisambiguate.ts lines 128-133). -/
def buildInputText (identity : Identity) : String :=
  truthyOr identity.pageTitle (truthyOr identity.ogTitle "") ++ " from " ++ identity.domain

/-- `hostname.replace('www.', '')`: plain string replace of the first
occurrence anywhere (not anchored). -/
def removeFirstWww : List Char → List Char
  | [] => []
  | c :: rest =>
    if "www.".data.isPrefixOf (c :: rest) then (c :: rest).drop 4
    else c :: removeFirstWww rest

/-- One candidate label (aiDisambiguate.ts lines 75-83):
`"${title} from ${domain}"`. -/
def candidateLabel (c : NotionPage) : String :=
  let title := truthyOr c.title (truthyOr c.filename "Unknown")
  let domain : String :=
    match parseUrl c.url with
    | some u => ⟨removeFirstWww u.host.data⟩
    | none => ""
  title ++ " from " ++ domain

def candidateLabels (candidates : List NotionPage) : List String :=
  candidates.map candidateLabel

/-- JavaScript `x.toFixed(1)` for the non-negative confidences printed in
reasons. -/
def toFixed1 (q : ℚ) : String :=
  let n : ℤ := ⌊q * 10 + 1/2⌋
  toString (n / 10) ++ "." ++ toString (n % 10)

/-- JavaScript `a || b` on two nullable strings, keeping the nullable
result. -/
def jsOrOpt (a b : Option String) : Option String :=
  match a with
  | none => b
  | some s => if s = "" then b else some s

/-- `parseBARTResponse` (aiDisambiguate.ts lines 135-178). -/
def parseBARTResponse (data : List (String × ℚ)) (labels : List String)
    (candidates : List NotionPage) : AIDisambiguationResult :=
  match data.head? with
  | none =>
    { matchedIndex := -1, confidence := 0, reason := "Invalid BART response format" }
  | some best =>
    let bestScore := best.2
    let bestLabel := best.1
    match labels.indexOf? bestLabel with
    | none =>
      { matchedIndex := -1, confidence := 0,
        reason := "Could not match BART label to candidate" }
    | some matchedIndex =>
      if bestScore < 0.55 then
        { matchedIndex := -1, confidence := bestScore,
          reason := "Best match score too low: " ++ toFixed1 (bestScore * 100) ++ "%" }
      else
        let candidateTitle : String :=
          match candidates.get? matchedIndex with
          | some c => (jsOrOpt c.title c.filename).getD "null"
          | none => "null"
        { matchedIndex := (matchedIndex : ℤ), confidence := bestScore,
          reason := "BART matched \"" ++ candidateTitle ++ "\" with " ++
            toFixed1 (bestScore * 100) ++ "% confidence" }

/-- `aiDisambiguate` (aiDisambiguate.ts lines 51-126), with the oracle call
made explicit.  Note that all oracle failures are caught inside the
function and surface as a `matchedIndex := -1` result — the function never
throws for them. -/
def aiDisambiguate (identity : Identity) (candidates : List NotionPage)
    (oracle : OracleOutcome) : AIDisambiguationResult :=
  if candidates.length = 0 then
    { matchedIndex := -1, confidence := 0, reason := "No candidates provided" }
  else if candidates.length = 1 then
    { matchedIndex := 0, confidence := 1, reason := "Only one candidate available" }
  else
    match oracle with
    | .httpError status _ =>
      { matchedIndex := -1, confidence := 0,
        reason := "HF API error: " ++ toString status }
    | .netError message =>
      { matchedIndex := -1, confidence := 0,
        reason := "API call failed: " ++ message }
    | .ok data => parseBARTResponse data (candidateLabels candidates) candidates

/-- The failure cases of the oracle and the reason string `aiDisambiguate`
produces for each (lines 100-107 and 118-125). -/
def oracleFailReason : OracleOutcome → Option String
  | .netError message => some ("API call failed: " ++ message)
  | .httpError status _ => some ("HF API error: " ++ toString status)
  | .ok _ => none

/-- The analyzer output (src/domain/analyzerJsonOutput.ts), restricted to
the fields the Phase 3 tail of main.ts writes. -/
structure AnalyzerOut where
  status : AnalyzerResult
  phaseResolved : Phase
  reason : String
  foundPageId : Option String
  ambiguousPageIds : Option (List String)
  deriving Repr, DecidableEq

/-- The Phase 3 decision tail of main.ts (lines 1061-1166): threshold-gate
the `aiDisambiguate` result and produce the final output.  `enriched` is
`notionLive.enriched`.  The `.error` case models the `TypeError` main.ts
would throw on an out-of-range matched index (unreachable for indices
produced by `aiDisambiguate`); every other path returns `.ok`. -/
def phase3Finish (d : Decision) (mode : Phase25Mode) (enriched : List NotionPage)
    (ai : AIDisambiguationResult) : Except String AnalyzerOut :=
  let aiMatched := 0 ≤ ai.matchedIndex ∧ AI_THRESHOLD ≤ ai.confidence
  if aiMatched then
    match enriched.get? ai.matchedIndex.toNat with
    | none => .error "TypeError: matched candidate is undefined"
    | some matched =>
      .ok { status := .FOUND, phaseResolved := .PHASE_3,
            reason := "AI match: " ++ ai.reason ++ " (" ++
              toFixed0 (ai.confidence * 100) ++ "%)",
            foundPageId := some matched.notion_id, ambiguousPageIds := none }
  else if mode = .DISAMBIGUATE then
    .ok { status := .AMBIGUOUS, phaseResolved := .PHASE_3,
          reason := "AI inconclusiva: " ++ ai.reason ++ " (" ++
            toFixed0 (ai.confidence * 100) ++ "%)",
          foundPageId := none,
          ambiguousPageIds := some (enriched.map NotionPage.notion_id) }
  else
    .ok { status := .NOTFOUND, phaseResolved := .PHASE_3,
          reason := "AI não confirmou candidato fraco: " ++ ai.reason ++ " (" ++
            toFixed0 (ai.confidence * 100) ++ "%)",
          foundPageId := none, ambiguousPageIds := none }

-- ─────────────────────────────────────────────────────────
-- CachingEngine (src/utils/cacheEngine.ts, src/utils/cache.ts,
-- src/utils/cacheIo.ts, src/cache/aiDecisionCache.ts)
-- ─────────────────────────────────────────────────────────

def isDigitCh (c : Char) : Bool :=
  '0' ≤ c ∧ c ≤ '9'

/-- Consume the `(\.\d+)*\b` tail of the version regex in
`stripNonDiscriminativeNoise`: zero or more `.digits` groups, greedily,
backtracking a group when the trailing word boundary fails (the previous
character is always a digit here, so the boundary holds exactly when the
next character is absent or a non-word character).  `fuel` bounds the
recursion by the list length. -/
def dotGroupsGo (fuel : ℕ) (l : List Char) : Option (List Char) :=
  let zeroCase : Option (List Char) :=
    match l.head? with
    | none => some l
    | some c => if isJsWord c then none else some l
  match fuel, l with
  | fuel + 1, '.' :: d :: rest =>
    if isDigitCh d then
      match dotGroupsGo fuel (rest.dropWhile isDigitCh) with
      | some rem => some rem
      | none => zeroCase
    else zeroCase
  | _, _ => zeroCase

/-- Match `\s*\d+(\.\d+)*\b` at the head of `l`, returning the remainder
after the match. -/
def matchVerNum (l : List Char) : Option (List Char) :=
  let afterSp := l.dropWhile isJsSpace
  match afterSp.head? with
  | none => none
  | some c =>
    if isDigitCh c then dotGroupsGo l.length (afterSp.dropWhile isDigitCh)
    else none

/-- Match the version regex `(v|ver|version)\s*\d+(\.\d+)*\b` at the head
of `l` (the leading `\b` is checked by the caller; the input is already
lowercased).  JavaScript alternation tries `v`, then `ver`, then
`version`, keeping the first alternative whose tail also matches. -/
def matchVersionAt (l : List Char) : Option (List Char) :=
  match (if "v".data.isPrefixOf l then matchVerNum (l.drop 1) else none) with
  | some rem => some rem
  | none =>
    match (if "ver".data.isPrefixOf l then matchVerNum (l.drop 3) else none) with
    | some rem => some rem
    | none =>
      if "version".data.isPrefixOf l then matchVerNum (l.drop 7) else none

/-- `out.replace(/\b(v|ver|version)\s*\d+(\.\d+)*\b/g, "")`: scan left to
right, deleting every match; `prevW` tracks whether the previous retained
original character was a word character (for the leading `\b`). -/
def stripVersionGo (fuel : ℕ) (prevW : Bool) (l : List Char) : List Char :=
  match fuel, l with
  | 0, l => l
  | _ + 1, [] => []
  | fuel + 1, c :: rest =>
    match (if prevW then none else matchVersionAt (c :: rest)) with
    | some rem => stripVersionGo fuel true rem
    | none => c :: stripVersionGo fuel (isJsWord c) rest

/-- Match the adjective regex `(updated|final|new|latest)\b` at the head of
`l` (leading `\b` checked by the caller). -/
def matchAdjAt (l : List Char) : Option (List Char) :=
  let tryWord : String → Option (List Char) := fun w =>
    if w.data.isPrefixOf l then
      let rem := l.drop w.length
      match rem.head? with
      | none => some rem
      | some c => if isJsWord c then none else some rem
    else none
  match tryWord "updated" with
  | some rem => some rem
  | none =>
    match tryWord "final" with
    | some rem => some rem
    | none =>
      match tryWord "new" with
      | some rem => some rem
      | none => tryWord "latest"

/-- `out.replace(/\b(updated|final|new|latest)\b/g, "")`. -/
def stripAdjGo (fuel : ℕ) (prevW : Bool) (l : List Char) : List Char :=
  match fuel, l with
  | 0, l => l
  | _ + 1, [] => []
  | fuel + 1, c :: rest =>
    match (if prevW then none else matchAdjAt (c :: rest)) with
    | some rem => stripAdjGo fuel true rem
    | none => c :: stripAdjGo fuel (isJsWord c) rest

/-- `stripNonDiscriminativeNoise` (cacheEngine.ts lines 138-150):
lowercase, trim, collapse whitespace, remove version tags, remove generic
adjectives, collapse whitespace again. -/
def stripNonDiscriminativeNoise (s : String) : String :=
  let out1 := jsTrim (jsLower s)
  let out2 : List Char := collapseSpaces out1.data
  let out3 := (jsTrim ⟨stripVersionGo out2.length false out2⟩).data
  let out4 := (jsTrim ⟨stripAdjGo out3.length false out3⟩).data
  ⟨collapseSpaces out4⟩

/-- `quantizeScore` (lines 152-155): `Math.round(score * 1000) / 1000`
(JavaScript `Math.round x = ⌊x + 1/2⌋`). -/
def quantizeScore (score : ℚ) : ℚ :=
  ((⌊score * 1000 + 1/2⌋ : ℤ) : ℚ) / 1000

/-- `getUrlKey` (lines 157-160): `url.trim().toLowerCase()` — the key of
the URL cache partition. -/
def getUrlKey (url : String) : String :=
  jsLower (jsTrim url)

/-- `getNotionId` (lines 162-167), modelled total: the source throws on a
missing `notion_id`, a case none of the claims exercises. -/
def getNotionId (p : NotionPage) : String :=
  p.notion_id

/-- `primaryName` in `buildEvidenceKey` (lines 317-321):
`pageTitle ?? ogTitle ?? urlSlug ?? ""` — nullish coalescing, not `||`. -/
def primaryNameOf (identity : Identity) : String :=
  match identity.pageTitle with
  | some s => s
  | none =>
    match identity.ogTitle with
    | some s => s
    | none => identity.urlSlug

/-- `identityKeyMaterial` (lines 323-334). -/
structure IdentityKeyMaterial where
  domain : String
  name : String
  slug : String
  blocked : Bool
  creator : Option String
  deriving Repr, DecidableEq

/-- The payload hashed by `buildEvidenceKey` (lines 346-351). -/
structure EvidenceKeyPayload where
  policyVersion : String
  identity : IdentityKeyMaterial
  candidates : List (String × Option ℚ)
  notionStamp : Option (List (String × String))
  deriving Repr, DecidableEq

/-- The payload construction of `CacheEngine.buildEvidenceKey`
(cacheEngine.ts lines 309-351): noise-stripped identity fields, creator
only on request, candidates as (id, optional quantized score) pairs sorted
by id (`localeCompare` modelled as the character order on strings). -/
def buildEvidenceKeyPayload (identity : Identity) (candidates : List NotionPage)
    (policyVersion : String) (notionStamp : Option (List (String × String)))
    (includeCreatorInKey : Bool) (includeCandidateScores : Bool) :
    EvidenceKeyPayload :=
  let identityKeyMaterial : IdentityKeyMaterial :=
    { domain := stripNonDiscriminativeNoise identity.domain,
      name := stripNonDiscriminativeNoise (primaryNameOf identity),
      slug := stripNonDiscriminativeNoise identity.urlSlug,
      blocked := identity.isBlocked,
      creator :=
        if includeCreatorInKey ∧ truthyStr identity.creator then
          some (stripNonDiscriminativeNoise (identity.creator.getD ""))
        else none }
  let candidatesKeyMaterial : List (String × Option ℚ) :=
    List.insertionSort (fun a b : String × Option ℚ => a.1 ≤ b.1)
      (candidates.map (fun p =>
        (getNotionId p,
         if includeCandidateScores ∧ p._score.isSome then
           some (quantizeScore (p._score.getD 0))
         else none)))
  { policyVersion := policyVersion, identity := identityKeyMaterial,
    candidates := candidatesKeyMaterial, notionStamp := notionStamp }

/-- JSON string literal (escaping elided: the claims only need the
serializer to be a function of the payload). -/
def jsonStr (s : String) : String :=
  "\"" ++ s ++ "\""

/-- Decimal printing of a quantized (thousandths) score, as
`JSON.stringify` prints the number. -/
def ratThousandthsJson (q : ℚ) : String :=
  let m : ℤ := ⌊q * 1000⌋
  let ip : ℤ := m / 1000
  let fp : ℕ := (m % 1000).toNat
  if fp = 0 then toString ip
  else
    let digits := (toString (1000 + fp)).data.drop 1
    let trimmed := (digits.reverse.dropWhile (fun c => c = '0')).reverse
    toString ip ++ "." ++ (⟨trimmed⟩ : String)

/-- `stableJsonStringify` (cacheEngine.ts lines 115-132) specialised to the
fixed shape of the evidence-key payload: object keys are emitted sorted
(`candidates`, `identity`, `notionStamp`, `policyVersion` at top level;
`blocked`, `creator`, `domain`, `name`, `slug` inside the identity), and
`undefined`-valued fields are omitted, as `JSON.stringify` omits them. -/
def evidenceKeyJson (p : EvidenceKeyPayload) : String :=
  let candJson : String × Option ℚ → String := fun c =>
    match c.2 with
    | none => "\x7b\"notion_id\":" ++ jsonStr c.1 ++ "\x7d"
    | some q => "\x7b\"notion_id\":" ++ jsonStr c.1 ++ ",\"score\":" ++
        ratThousandthsJson q ++ "\x7d"
  let identityJson :=
    "\x7b\"blocked\":" ++ (if p.identity.blocked then "true" else "false") ++
    (match p.identity.creator with
     | some c => ",\"creator\":" ++ jsonStr c
     | none => "") ++
    ",\"domain\":" ++ jsonStr p.identity.domain ++
    ",\"name\":" ++ jsonStr p.identity.name ++
    ",\"slug\":" ++ jsonStr p.identity.slug ++ "\x7d"
  let stampJson :=
    match p.notionStamp with
    | none => ""
    | some entries =>
      ",\"notionStamp\":\x7b" ++
      String.intercalate ","
        ((List.insertionSort (fun a b : String × String => a.1 ≤ b.1) entries).map
          (fun kv => jsonStr kv.1 ++ ":" ++ jsonStr kv.2)) ++ "\x7d"
  "\x7b\"candidates\":[" ++ String.intercalate "," (p.candidates.map candJson) ++
  "],\"identity\":" ++ identityJson ++ stampJson ++
  ",\"policyVersion\":" ++ jsonStr p.policyVersion ++ "\x7d"

/-- Models the platform `crypto.createHash("sha256")` hex digest as a
deterministic executable function of the serialized payload; every claim
proved here depends only on the digest being a function of its input. -/
def sha256Model (s : String) : String :=
  let h := s.data.foldl (fun h c => (h * 131 + c.toNat) % (2 ^ 64)) 7
  ⟨Nat.toDigits 16 h⟩

namespace CacheEngine

/-- `CacheEngine.buildEvidenceKey` (cacheEngine.ts lines 309-354). -/
def buildEvidenceKey (identity : Identity) (candidates : List NotionPage)
    (policyVersion : String) (notionStamp : Option (List (String × String)))
    (includeCreatorInKey : Bool) (includeCandidateScores : Bool) : String :=
  sha256Model (evidenceKeyJson
    (buildEvidenceKeyPayload identity candidates policyVersion notionStamp
      includeCreatorInKey includeCandidateScores))

end CacheEngine

/-- `buildEvidenceKey` (cache.ts lines 96-110) as main.ts calls it: the
engine key with the default options — no stamp, no creator, no scores. -/
def buildEvidenceKey (identity : Identity) (candidates : List NotionPage)
    (policyVersion : String) : String :=
  CacheEngine.buildEvidenceKey identity candidates policyVersion none false false

/-- The evidence key exactly as the pipeline entry point computes it
(main.ts lines 891-895): from the identity and the bounded Phase 3
candidates, with the raw input URL in scope but not an input of the key. -/
def mainEvidenceKey (inputUrl : String) (identity : Identity)
    (phase3Candidates : List NotionPage) : String :=
  buildEvidenceKey identity phase3Candidates POLICY_VERSION

/-- `DecisionEntry` (cacheEngine.ts lines 48-58). -/
structure DecisionEntry where
  result : AnalyzerResult
  reason : String
  phaseResolved : Phase
  timestamp : ℕ
  urlKey : Option String
  evidenceKey : Option String
  chosenNotionId : Option String
  candidateNotionIds : Option (List String)
  deriving Repr, DecidableEq

/-- `NotionPageCacheEntry` (lines 62-73); the opaque `data` record is
modelled as an association list. -/
structure NotionPageCacheEntry where
  notion_id : String
  fetchedAt : ℕ
  ttlMs : ℕ
  last_edited_time : Option String
  data : List (String × String)
  deriving Repr, DecidableEq

/-- `CacheV2` (lines 75-82): the three partitions of the versioned store,
with `Record<string, _>` modelled as insertion-ordered association lists. -/
structure CacheV2 where
  snapshotVersion : Option String
  urlCache : List (String × DecisionEntry)
  notionPageCache : List (String × NotionPageCacheEntry)
  decisionCache : List (String × DecisionEntry)
  deriving Repr, DecidableEq

/-- JavaScript `obj[key] = value` on an insertion-ordered record. -/
def recordSet {α : Type} (m : List (String × α)) (k : String) (v : α) :
    List (String × α) :=
  if m.any (fun kv => kv.1 == k) then
    m.map (fun kv => if kv.1 == k then (k, v) else kv)
  else m ++ [(k, v)]

namespace CacheEngine

/-- `CacheEngine.load` (cacheEngine.ts lines 182-217) as a pure function:
`raw` is the parsed on-disk store (`none` when the file is missing,
unreadable or fails the `isCacheV2` schema check), `snapshotVersion` the
stamp of the current catalog snapshot.  A stamp mismatch resets the URL
and decision partitions and keeps the Notion page partition. -/
def load (raw : Option CacheV2) (snapshotVersion : Option String) : CacheV2 :=
  match raw with
  | none =>
    { snapshotVersion := snapshotVersion, urlCache := [],
      notionPageCache := [], decisionCache := [] }
  | some loaded =>
    if truthyStr snapshotVersion ∧ truthyStr loaded.snapshotVersion ∧
        loaded.snapshotVersion ≠ snapshotVersion then
      { snapshotVersion := snapshotVersion, urlCache := [],
        notionPageCache := loaded.notionPageCache, decisionCache := [] }
    else
      { loaded with
        snapshotVersion :=
          match snapshotVersion with
          | some v => some v
          | none => loaded.snapshotVersion }

/-- `CacheEngine.getUrlDecision` (lines 230-233). -/
def getUrlDecision (cache : CacheV2) (url : String) : Option DecisionEntry :=
  (cache.urlCache.find? (fun kv => kv.1 == getUrlKey url)).map Prod.snd

/-- `CacheEngine.setUrlDecision` (lines 235-238). -/
def setUrlDecision (cache : CacheV2) (url : String) (entry : DecisionEntry) :
    CacheV2 :=
  let key := getUrlKey url
  { cache with urlCache := recordSet cache.urlCache key { entry with urlKey := some key } }

/-- `CacheEngine.setDecision` (lines 297-299). -/
def setDecision (cache : CacheV2) (evidenceKey : String) (entry : DecisionEntry) :
    CacheV2 :=
  { cache with
    decisionCache :=
      recordSet cache.decisionCache evidenceKey
        { entry with evidenceKey := some evidenceKey } }

/-- `CacheEngine.makeDecisionEntry` (lines 358-383); `Date.now()` is passed
in as `now`. -/
def makeDecisionEntry (result : AnalyzerResult) (reason : String)
    (phaseResolved : Phase) (url : Option String) (evidenceKey : Option String)
    (chosenNotionId : Option String) (candidates : Option (List NotionPage))
    (now : ℕ) : DecisionEntry :=
  { result := result, reason := reason, phaseResolved := phaseResolved,
    timestamp := now,
    urlKey := url.map getUrlKey,
    evidenceKey := evidenceKey,
    chosenNotionId := chosenNotionId,
    candidateNotionIds := candidates.map (fun cs => cs.map getNotionId) }

end CacheEngine

/-- `AiDecisionCacheEntry` (src/cache/aiDecisionCache.ts lines 21-34). -/
structure AiDecisionEntry where
  result : AnalyzerResult
  phaseResolved : Phase
  reason : String
  chosenNotionId : Option String
  confidence : Option ℚ
  timestamp : ℕ
  deriving Repr, DecidableEq

/-- `AiDecisionCacheFile` (aiDecisionCache.ts lines 36-41); the schema tag
is folded into the parse result. -/
structure AiDecisionFile where
  snapshotVersion : String
  policyVersion : String
  entries : List (String × AiDecisionEntry)
  deriving Repr, DecidableEq

/-- `pruneIfNeeded` (aiDecisionCache.ts lines 59-69): oldest-timestamp
eviction past `MAX_ENTRIES = 4000`. -/
def pruneIfNeeded (entries : List (String × AiDecisionEntry)) :
    List (String × AiDecisionEntry) :=
  if entries.length ≤ 4000 then entries
  else
    let sorted := List.insertionSort
      (fun a b : String × AiDecisionEntry => a.2.timestamp ≤ b.2.timestamp) entries
    let toRemove := (sorted.take (entries.length - 4000)).map Prod.fst
    entries.filter (fun kv => ¬ toRemove.contains kv.1)

/-- `AiDecisionCache.load` (aiDecisionCache.ts lines 78-112): `raw` is the
parsed file (`none` when missing, unreadable or of the wrong schema); any
snapshot- or policy-stamp mismatch resets the entries. -/
def aiDecisionCacheLoad (raw : Option AiDecisionFile)
    (snapshotVersion policyVersion : String) : AiDecisionFile :=
  match raw with
  | none =>
    { snapshotVersion := snapshotVersion, policyVersion := policyVersion, entries := [] }
  | some parsed =>
    if parsed.snapshotVersion = snapshotVersion ∧ parsed.policyVersion = policyVersion then
      { snapshotVersion := snapshotVersion, policyVersion := policyVersion,
        entries := parsed.entries }
    else
      { snapshotVersion := snapshotVersion, policyVersion := policyVersion, entries := [] }

/-- `AiDecisionCache.set` (aiDecisionCache.ts lines 119-131). -/
def aiDecisionCacheSet (file : AiDecisionFile) (evidenceKey : String)
    (entry : AiDecisionEntry) : AiDecisionFile :=
  if evidenceKey = "" then file
  else { file with entries := pruneIfNeeded (recordSet file.entries evidenceKey entry) }

/-- The cache bundle handed to the pipeline (cache.ts lines 39-48),
restricted to the stores `persistDecision` writes. -/
structure CacheBundle where
  engine : CacheV2
  ai : AiDecisionFile
  deriving Repr, DecidableEq

/-- `isDeterministicPhase` (cache.ts lines 87-93). -/
def isDeterministicPhase (phaseResolved : Phase) : Bool :=
  phaseResolved == .REJECTED_404 || phaseResolved == .PHASE_0 || phaseResolved == .PHASE_0_5

/-- `persistDecision` (cache.ts lines 141-194) as a pure state transform:
the URL partition is written only for deterministic phases, the evidence
partitions only when a (truthy) evidence key exists. -/
def persistDecision (caches : CacheBundle) (inputUrl : String) (out : AnalyzerOut)
    (evidenceKey : Option String) (candidates : List NotionPage)
    (aiConfidence : Option ℚ) (now : ℕ) : CacheBundle :=
  let chosenNotionId := out.foundPageId
  let entry := CacheEngine.makeDecisionEntry out.status out.reason out.phaseResolved
    (some inputUrl) evidenceKey chosenNotionId (some candidates) now
  let engine1 :=
    if isDeterministicPhase out.phaseResolved then
      CacheEngine.setUrlDecision caches.engine inputUrl entry
    else caches.engine
  if truthyStr evidenceKey then
    let key := evidenceKey.getD ""
    { engine := CacheEngine.setDecision engine1 key entry,
      ai := aiDecisionCacheSet caches.ai key
        { result := out.status, phaseResolved := out.phaseResolved,
          reason := out.reason, chosenNotionId := chosenNotionId,
          confidence := aiConfidence, timestamp := now } }
  else
    { engine := engine1, ai := caches.ai }

/-- `canonicalizeUrlKey` (src/utils/cacheIo.ts lines 330-363): scheme and
host lowercased, `www.` and default ports stripped, duplicate slashes
collapsed, trailing slashes dropped, fragment removed, query parameters
sorted.  Note: the path keeps its case and no query parameter is dropped. -/
def canonicalizeUrlKey (rawUrl : String) : String :=
  let input := jsTrim rawUrl
  if input = "" then ""
  else
    match parseUrl input with
    | none => input
    | some u =>
      let protocol := u.scheme ++ ":"
      let hostname := stripWww u.host
      let port := u.port
      let isDefaultPort :=
        (protocol = "https:" ∧ port = "443") ∨ (protocol = "http:" ∧ port = "80")
      let host := if port = "" ∨ isDefaultPort then hostname else hostname ++ ":" ++ port
      let p0 := if u.pathname = "" then "/" else u.pathname
      let p1 : List Char := p0.data.foldr
        (fun c acc =>
          if c = '/' then
            match acc with
            | '/' :: _ => acc
            | _ => '/' :: acc
          else c :: acc)
        []
      let p2 : List Char :=
        if 1 < p1.length then (p1.reverse.dropWhile (fun c => c = '/')).reverse else p1
      let params : List (String × String) :=
        if u.search = "" then []
        else
          (splitOnPred (fun c => c = '&') u.search.data).filterMap (fun chunk =>
            if chunk = "" then none
            else
              let kv := breakAt (fun c => c = '=') chunk.data
              some ((⟨kv.1⟩ : String), (⟨kv.2.drop 1⟩ : String)))
      let sorted := List.insertionSort (fun a b : String × String => a.1 ≤ b.1) params
      let normalizedSearch :=
        if sorted.length ≠ 0 then
          "?" ++ String.intercalate "&" (sorted.map (fun kv => kv.1 ++ "=" ++ kv.2))
        else ""
      protocol ++ "//" ++ host ++ (⟨p2⟩ : String) ++ normalizedSearch

-- ─────────────────────────────────────────────────────────
-- Concrete fixtures shared by the theorems below
-- ─────────────────────────────────────────────────────────

/-- A catalog entry with the given id, URL and title and no other data. -/
def exPage (id url : String) (title : Option String) : NotionPage :=
  { notion_id := id, url := url, title := title, filename := none,
    creator := none, created_time := "", last_edited_time := "",
    _score := none, _reasons := none }

/-- A blank identity; concrete theorems build variants with structure
updates. -/
def exIdentity : Identity :=
  { url := "", domain := "", urlSlug := "", pageTitle := none, ogTitle := none,
    ogSite := none, creator := none, isBlocked := false, fallbackLabel := "" }

-- ─────────────────────────────────────────────────────────
-- Theorems
-- ─────────────────────────────────────────────────────────

/-- C2 (counterexample): the code resolves FOUND via slug on
`https://z.com/cool-pack` although, under the claim's slug definition
(non-alphanumerics stripped, hyphens included), two distinct catalog
entries (`…/cool-pack` and `…/coolpack`) share the input's slug
`coolpack` — because the code keeps hyphens, so only one entry shares its
slug `cool-pack`. -/
theorem slug_spec_hyphen_counterexample :
    phase05Match "https://z.com/cool-pack"
      [exPage "x1" "https://x.com/cool-pack" (some "Cool Pack X"),
       exPage "y1" "https://y.com/coolpack" (some "Cool Pack Y")] =
      some (exPage "x1" "https://x.com/cool-pack" (some "Cool Pack X")) ∧
    slugSpecStripNonAlphanumeric "https://z.com/cool-pack" = some "coolpack" ∧
    slugSpecStripNonAlphanumeric "https://x.com/cool-pack" = some "coolpack" ∧
    slugSpecStripNonAlphanumeric "https://y.com/coolpack" = some "coolpack" ∧
    exPage "x1" "https://x.com/cool-pack" (some "Cool Pack X") ≠
      exPage "y1" "https://y.com/coolpack" (some "Cool Pack Y") := by
  with_unfolding_all decide

/-- C2 (amended): the slug stage resolves via slug only when exactly one
catalog entry's URL yields the same final path slug (last non-empty path
segment, lowercased, characters other than `a-z`, `0-9` and hyphen
stripped); with two or more sharing entries no slug match is produced. -/
theorem slug_unique_match_rule (inputUrl : String) (pages : List NotionPage) :
    (∀ p, phase05Match inputUrl pages = some p →
      ∃ sd, extractFinalSlug inputUrl = some sd ∧
        pages.filter (sharesFinalSlug sd.1) = [p]) ∧
    (∀ sd, extractFinalSlug inputUrl = some sd →
      2 ≤ (pages.filter (sharesFinalSlug sd.1)).length →
      phase05Match inputUrl pages = none) := by
  constructor
  · intro p hp
    cases h : extractFinalSlug inputUrl with
    | none => simp [phase05Match, h] at hp
    | some sd =>
      simp only [phase05Match, h] at hp
      refine ⟨sd, rfl, ?_⟩
      by_cases hl : (pages.filter (sharesFinalSlug sd.1)).length = 1
      · obtain ⟨a, ha⟩ := List.length_eq_one.mp hl
        rw [if_pos hl, ha] at hp
        simp only [List.head?_cons, Option.some.injEq] at hp
        rw [ha, hp]
      · rw [if_neg hl] at hp
        exact absurd hp (by simp)
  · intro sd hsd h2
    have hne : (pages.filter (sharesFinalSlug sd.1)).length ≠ 1 := by omega
    simp only [phase05Match, hsd, if_neg hne]

/-- C2 (witness): the amended rule applied at concrete inputs — a unique
sharing entry is returned (so the filter is that singleton), and a
two-entry slug collision yields no slug match. -/
theorem slug_unique_match_rule_witness :
    (∃ sd, extractFinalSlug "https://z.com/cool-pack" = some sd ∧
      [exPage "x1" "https://x.com/cool-pack" (some "Cool Pack X")].filter
        (sharesFinalSlug sd.1) =
        [exPage "x1" "https://x.com/cool-pack" (some "Cool Pack X")]) ∧
    phase05Match "https://z.com/cool-pack"
      [exPage "x1" "https://x.com/cool-pack" none,
       exPage "x2" "https://w.com/cool-pack" none] = none :=
  ⟨(slug_unique_match_rule "https://z.com/cool-pack" _).1 _
      (by with_unfolding_all decide),
   (slug_unique_match_rule "https://z.com/cool-pack" _).2 ("cool-pack", "z.com")
      (by with_unfolding_all decide) (by with_unfolding_all decide)⟩

/-- C5 (counterexample): an identity whose page title and og title are both
empty does NOT short-circuit when its URL slug is usable — the search title
falls back to `urlSlug` (`pageTitle || ogTitle || urlSlug || ""`), the
scoring pass runs, and here even returns FOUND with a candidate. -/
theorem empty_primary_name_counterexample :
    ({ exIdentity with urlSlug := "coolpackmod" } : Identity).pageTitle = none ∧
    ({ exIdentity with urlSlug := "coolpackmod" } : Identity).ogTitle = none ∧
    (searchNotionCache { exIdentity with urlSlug := "coolpackmod" }
      [exPage "s1" "" (some "coolpackmod")]).decision.result = .FOUND ∧
    (searchNotionCache { exIdentity with urlSlug := "coolpackmod" }
      [exPage "s1" "" (some "coolpackmod")]).candidates ≠ [] := by
  with_unfolding_all decide

/-- C5 (amended): when the identity yields no usable search name at all —
page title, og title and URL slug all empty — Phase 2 short-circuits to a
NOTFOUND decision with an empty candidate list, and its output does not
depend on the catalog (no scoring pass). -/
theorem empty_search_name_shortcircuit (identity : Identity)
    (pages : List NotionPage) (h : searchTitleOf identity = "") :
    (searchNotionCache identity pages).decision.result = .NOTFOUND ∧
    (searchNotionCache identity pages).candidates = [] ∧
    searchNotionCache identity pages = searchNotionCache identity [] := by
  refine ⟨?_, ?_, ?_⟩ <;> simp [searchNotionCache, h]

/-- C5 (witness): the amended short-circuit at a concrete all-empty
identity against a non-trivial catalog. -/
theorem empty_search_name_shortcircuit_witness :
    (searchNotionCache exIdentity
      [exPage "s1" "https://x.com/a" (some "Cool Pack")]).decision.result = .NOTFOUND ∧
    (searchNotionCache exIdentity
      [exPage "s1" "https://x.com/a" (some "Cool Pack")]).candidates = [] ∧
    searchNotionCache exIdentity [exPage "s1" "https://x.com/a" (some "Cool Pack")] =
      searchNotionCache exIdentity [] :=
  empty_search_name_shortcircuit exIdentity _ (by with_unfolding_all decide)

instance {ε α : Type} [DecidableEq ε] [DecidableEq α] : DecidableEq (Except ε α) := fun
  | .ok a, .ok b =>
    if h : a = b then isTrue (by rw [h]) else isFalse (by simp [h])
  | .ok _, .error _ => isFalse (by simp)
  | .error _, .ok _ => isFalse (by simp)
  | .error e, .error f =>
    if h : e = f then isTrue (by rw [h]) else isFalse (by simp [h])

/-- A concrete pre-arbitration (Phase 2) decision used by the Phase 3
theorems: NOTFOUND from the fuzzy stage. -/
def exDecision : Decision :=
  { result := .NOTFOUND, phaseResolved := .PHASE_2, reason := "no confident match",
    notionId := none, notionUrl := none, displayName := none,
    phase2Candidates := some 2 }

/-- C3 (counterexample): with exactly one bounded candidate the pipeline
accepts FOUND no matter what the oracle would say: the oracle here reports
confidence 0.1, below the threshold 0.55, for which the claim requires
NOTFOUND — but `aiDisambiguate` returns confidence 1.0 without consulting
the oracle, and the decision is FOUND. -/
theorem single_candidate_oracle_bypass_counterexample :
    (1 : ℚ)/10 < AI_THRESHOLD ∧
    aiDisambiguate exIdentity [exPage "c1" "" (some "Weak Pack")]
      (OracleOutcome.ok [("Weak Pack from ", 1/10)]) =
      { matchedIndex := 0, confidence := 1, reason := "Only one candidate available" } ∧
    phase3Finish exDecision .CONFIRM_SINGLE_WEAK [exPage "c1" "" (some "Weak Pack")]
      (aiDisambiguate exIdentity [exPage "c1" "" (some "Weak Pack")]
        (OracleOutcome.ok [("Weak Pack from ", 1/10)])) =
      .ok { status := .FOUND, phaseResolved := .PHASE_3,
            reason := "AI match: Only one candidate available (100%)",
            foundPageId := some "c1", ambiguousPageIds := none } := by
  with_unfolding_all decide

/-- C3 (amended): in single-candidate arbitration mode the oracle is never
consulted: for every identity, candidate, oracle outcome and enriched
candidate, `aiDisambiguate` on a one-element list returns matchedIndex 0
with confidence 1.0 ("Only one candidate available"), which always clears
`AI_THRESHOLD` = 0.55, so the arbitration tail accepts the candidate as
FOUND at PHASE_3; the NOTFOUND branch is unreachable in this mode. -/
theorem single_candidate_always_accepted (identity : Identity) (c e : NotionPage)
    (oracle : OracleOutcome) (d : Decision) :
    aiDisambiguate identity [c] oracle =
      { matchedIndex := 0, confidence := 1, reason := "Only one candidate available" } ∧
    phase3Finish d .CONFIRM_SINGLE_WEAK [e] (aiDisambiguate identity [c] oracle) =
      .ok { status := .FOUND, phaseResolved := .PHASE_3,
            reason := "AI match: Only one candidate available (100%)",
            foundPageId := some e.notion_id, ambiguousPageIds := none } := by
  have h1 : aiDisambiguate identity [c] oracle =
      { matchedIndex := 0, confidence := 1, reason := "Only one candidate available" } := by
    simp [aiDisambiguate]
  have hfix : toFixed0 (100 : ℚ) = "100" := by with_unfolding_all decide
  refine ⟨h1, ?_⟩
  rw [h1]
  simp [phase3Finish, AI_THRESHOLD, hfix]
  norm_num

/-- C4 (counterexample): an oracle failure (non-ok HTTP 500) in
multi-candidate mode does not reproduce the pre-arbitration decision: the
FuzzyScorer decision was NOTFOUND, but the pipeline returns AMBIGUOUS at
PHASE_3 (with the failure cause in the reason). -/
theorem oracle_failure_status_counterexample :
    exDecision.result = .NOTFOUND ∧
    phase3Finish exDecision .DISAMBIGUATE
      [exPage "c1" "" (some "A pack"), exPage "c2" "" (some "B pack")]
      (aiDisambiguate exIdentity
        [exPage "c1" "" (some "A pack"), exPage "c2" "" (some "B pack")]
        (OracleOutcome.httpError 500 "server error")) =
      .ok { status := .AMBIGUOUS, phaseResolved := .PHASE_3,
            reason := "AI inconclusiva: HF API error: 500 (0%)",
            foundPageId := none, ambiguousPageIds := some ["c1", "c2"] } ∧
    AnalyzerResult.AMBIGUOUS ≠ exDecision.result := by
  with_unfolding_all decide

/-- C4 (amended): when the oracle call fails (network error or non-ok HTTP
response) in multi-candidate mode, `aiDisambiguate` degrades to a no-match
result (matchedIndex −1, confidence 0) whose reason is the failure cause,
and the pipeline returns a non-fatal AMBIGUOUS decision at PHASE_3
carrying the bounded candidate ids and the failure cause inside the
reason; the failure is never escalated to a fatal error, but the
pre-arbitration status is not necessarily reproduced. -/
theorem oracle_failure_degradation (identity : Identity)
    (candidates enriched : List NotionPage) (d : Decision) (oracle : OracleOutcome)
    (r : String) (hLen : 2 ≤ candidates.length)
    (hFail : oracleFailReason oracle = some r) :
    aiDisambiguate identity candidates oracle =
      { matchedIndex := -1, confidence := 0, reason := r } ∧
    phase3Finish d .DISAMBIGUATE enriched (aiDisambiguate identity candidates oracle) =
      .ok { status := .AMBIGUOUS, phaseResolved := .PHASE_3,
            reason := "AI inconclusiva: " ++ r ++ " (0%)",
            foundPageId := none,
            ambiguousPageIds := some (enriched.map NotionPage.notion_id) } := by
  have h0 : candidates.length ≠ 0 := by omega
  have h1 : candidates.length ≠ 1 := by omega
  have hai : aiDisambiguate identity candidates oracle =
      { matchedIndex := -1, confidence := 0, reason := r } := by
    cases oracle with
    | netError m =>
      simp only [oracleFailReason, Option.some.injEq] at hFail
      simp [aiDisambiguate, h0, h1, hFail]
    | httpError s b =>
      simp only [oracleFailReason, Option.some.injEq] at hFail
      simp [aiDisambiguate, h0, h1, hFail]
    | ok data => simp [oracleFailReason] at hFail
  have hfix : toFixed0 (0 : ℚ) = "0" := by with_unfolding_all decide
  have hstr : ∀ X : String, ((X ++ " (") ++ "0") ++ "%)" = X ++ " (0%)" := fun X => by
    rw [String.append_assoc, String.append_assoc]
    congr 1
  refine ⟨hai, ?_⟩
  rw [hai]
  simp [phase3Finish, hfix]
  exact hstr ("AI inconclusiva: " ++ r)

/-- C4 (witness): the degradation rule applied at a concrete network
failure with two candidates. -/
theorem oracle_failure_degradation_witness :
    aiDisambiguate exIdentity
      [exPage "c1" "" (some "A pack"), exPage "c2" "" (some "B pack")]
      (OracleOutcome.netError "fetch failed") =
      { matchedIndex := -1, confidence := 0, reason := "API call failed: fetch failed" } ∧
    phase3Finish exDecision .DISAMBIGUATE
      [exPage "c1" "" (some "A pack"), exPage "c2" "" (some "B pack")]
      (aiDisambiguate exIdentity
        [exPage "c1" "" (some "A pack"), exPage "c2" "" (some "B pack")]
        (OracleOutcome.netError "fetch failed")) =
      .ok { status := .AMBIGUOUS, phaseResolved := .PHASE_3,
            reason := "AI inconclusiva: API call failed: fetch failed (0%)",
            foundPageId := none, ambiguousPageIds := some ["c1", "c2"] } :=
  oracle_failure_degradation exIdentity _ _ exDecision _ _
    (by with_unfolding_all decide) (by with_unfolding_all decide)

/-- C7: loading the store with a version stamp that mismatches the stored
stamp (both stamps truthy) resets the URL and Evidence (decision)
partitions to empty and preserves the LiveEntity (notion page) partition
unchanged; when the stamps match, all three partitions are preserved. -/
theorem cache_load_version_invalidation (st : CacheV2) (sv : Option String) :
    (truthyStr sv = true → truthyStr st.snapshotVersion = true →
      st.snapshotVersion ≠ sv →
      CacheEngine.load (some st) sv =
        { snapshotVersion := sv, urlCache := [],
          notionPageCache := st.notionPageCache, decisionCache := [] }) ∧
    (st.snapshotVersion = sv →
      (CacheEngine.load (some st) sv).urlCache = st.urlCache ∧
      (CacheEngine.load (some st) sv).decisionCache = st.decisionCache ∧
      (CacheEngine.load (some st) sv).notionPageCache = st.notionPageCache) := by
  constructor
  · intro h1 h2 h3
    simp [CacheEngine.load, h1, h2, h3]
  · intro heq
    have hcond : ¬ (truthyStr sv = true ∧ truthyStr st.snapshotVersion = true ∧
        st.snapshotVersion ≠ sv) := by
      intro hc
      exact hc.2.2 heq
    simp only [CacheEngine.load]
    rw [if_neg hcond]
    exact ⟨rfl, rfl, rfl⟩

/-- C7 (witness): the invalidation rule at a concrete store — a stamp
mismatch wipes URL and decision partitions keeping the notion page
partition, and a matching stamp preserves everything. -/
theorem cache_load_version_invalidation_witness :
    (CacheEngine.load
        (some { snapshotVersion := some "v1:3",
                urlCache := [("https://x.com/a",
                  { result := .FOUND, reason := "", phaseResolved := .PHASE_0,
                    timestamp := 5, urlKey := none, evidenceKey := none,
                    chosenNotionId := none, candidateNotionIds := none })],
                notionPageCache := [("n1",
                  { notion_id := "n1", fetchedAt := 9, ttlMs := 100,
                    last_edited_time := none, data := [] })],
                decisionCache := [("k1",
                  { result := .NOTFOUND, reason := "", phaseResolved := .PHASE_3,
                    timestamp := 6, urlKey := none, evidenceKey := none,
                    chosenNotionId := none, candidateNotionIds := none })] })
        (some "v2:4") =
      { snapshotVersion := some "v2:4", urlCache := [],
        notionPageCache := [("n1",
          { notion_id := "n1", fetchedAt := 9, ttlMs := 100,
            last_edited_time := none, data := [] })],
        decisionCache := [] }) ∧
    (CacheEngine.load
        (some { snapshotVersion := some "v1:3", urlCache := [],
                notionPageCache := [], decisionCache := [] })
        (some "v1:3")).urlCache = [] := by
  constructor
  · exact (cache_load_version_invalidation _ _).1 (by with_unfolding_all decide)
      (by with_unfolding_all decide) (by with_unfolding_all decide)
  · exact ((cache_load_version_invalidation _ _).2 (by with_unfolding_all decide)).1

/-- An empty cache bundle used by concrete cache theorems. -/
def exBundle : CacheBundle :=
  { engine :=
      { snapshotVersion := none, urlCache := [],
        notionPageCache := [], decisionCache := [] },
    ai := { snapshotVersion := "s", policyVersion := "p", entries := [] } }

theorem mem_recordSet {α : Type} {m : List (String × α)} {k : String} {v : α}
    {kv : String × α} (h : kv ∈ recordSet m k v) : kv ∈ m ∨ kv = (k, v) := by
  unfold recordSet at h
  by_cases ha : m.any (fun p => p.1 == k) = true
  · rw [if_pos ha] at h
    rcases List.mem_map.mp h with ⟨p, hp, hpe⟩
    by_cases hk : p.1 == k
    · right
      rw [← hpe]
      simp [hk]
    · left
      rw [← hpe]
      simp only [hk, if_neg]
      simpa [hk] using hp
  · rw [if_neg ha] at h
    rcases List.mem_append.mp h with h1 | h2
    · left
      exact h1
    · right
      simpa using h2

/-- C8: `persistDecision` writes the URL partition exactly when the
resolved phase is deterministic (PHASE_0, PHASE_0_5 or REJECTED_404) — it
then stores the decision entry under the canonical URL key; for any other
phase (fuzzy, AI, …) the URL partition is untouched, so a URL partition
holding only deterministic outcomes still holds only deterministic
outcomes after any persist. -/
theorem url_partition_deterministic_only (caches : CacheBundle) (inputUrl : String)
    (out : AnalyzerOut) (ek : Option String) (cands : List NotionPage)
    (conf : Option ℚ) (now : ℕ) :
    (isDeterministicPhase out.phaseResolved = true →
      (persistDecision caches inputUrl out ek cands conf now).engine.urlCache =
        recordSet caches.engine.urlCache (getUrlKey inputUrl)
          { (CacheEngine.makeDecisionEntry out.status out.reason out.phaseResolved
              (some inputUrl) ek out.foundPageId (some cands) now) with
            urlKey := some (getUrlKey inputUrl) }) ∧
    (isDeterministicPhase out.phaseResolved = false →
      (persistDecision caches inputUrl out ek cands conf now).engine.urlCache =
        caches.engine.urlCache) ∧
    ((∀ kv ∈ caches.engine.urlCache, isDeterministicPhase kv.2.phaseResolved = true) →
      ∀ kv ∈ (persistDecision caches inputUrl out ek cands conf now).engine.urlCache,
        isDeterministicPhase kv.2.phaseResolved = true) ∧
    (isDeterministicPhase .PHASE_0 = true ∧ isDeterministicPhase .PHASE_0_5 = true ∧
      isDeterministicPhase .REJECTED_404 = true ∧ isDeterministicPhase .PHASE_2 = false ∧
      isDeterministicPhase .PHASE_3 = false) := by
  have hurl : (persistDecision caches inputUrl out ek cands conf now).engine.urlCache =
      if isDeterministicPhase out.phaseResolved then
        recordSet caches.engine.urlCache (getUrlKey inputUrl)
          { (CacheEngine.makeDecisionEntry out.status out.reason out.phaseResolved
              (some inputUrl) ek out.foundPageId (some cands) now) with
            urlKey := some (getUrlKey inputUrl) }
      else caches.engine.urlCache := by
    by_cases hd : isDeterministicPhase out.phaseResolved = true <;>
      simp [persistDecision, CacheEngine.setUrlDecision, CacheEngine.setDecision, hd] <;>
      by_cases he : truthyStr ek = true <;>
      simp [he]
  refine ⟨?_, ?_, ?_, by with_unfolding_all decide⟩
  · intro hd
    rw [hurl, if_pos hd]
  · intro hd
    rw [hurl, hd]
    simp
  · intro hall kv hkv
    rw [hurl] at hkv
    by_cases hd : isDeterministicPhase out.phaseResolved = true
    · rw [if_pos hd] at hkv
      rcases mem_recordSet hkv with hmem | hnew
      · exact hall kv hmem
      · rw [hnew]
        exact hd
    · rw [if_neg hd] at hkv
      exact hall kv hkv

/-- C8 (witness): a deterministic PHASE_0 decision is written to the empty
URL partition under the lowercased trimmed URL key, and a PHASE_3 decision
leaves the URL partition unchanged; membership preservation and the phase
classification applied concretely. -/
theorem url_partition_deterministic_only_witness :
    (persistDecision exBundle "https://X.com/A"
      { status := .FOUND, phaseResolved := .PHASE_0, reason := "direct",
        foundPageId := some "n1", ambiguousPageIds := none }
      none [] none 7).engine.urlCache =
      recordSet [] (getUrlKey "https://X.com/A")
        { (CacheEngine.makeDecisionEntry .FOUND "direct" .PHASE_0
            (some "https://X.com/A") none (some "n1") (some []) 7) with
          urlKey := some (getUrlKey "https://X.com/A") } ∧
    (persistDecision exBundle "https://X.com/A"
      { status := .AMBIGUOUS, phaseResolved := .PHASE_3, reason := "ai",
        foundPageId := none, ambiguousPageIds := some ["a", "b"] }
      (some "k") [] none 7).engine.urlCache = [] :=
  ⟨(url_partition_deterministic_only _ _ _ _ _ _ _).1 (by with_unfolding_all decide),
   (url_partition_deterministic_only _ _ _ _ _ _ _).2.1 (by with_unfolding_all decide)⟩

/-- C9 (counterexample): the URL cache key function does not canonicalize:
`getUrlKey` (trim + lowercase, the key actually used by the URL partition)
maps `https://Example.com/Path/` and `https://example.com/path` to
DIFFERENT keys, and keeps a tracking query parameter, so dropping it
changes the key; `canonicalizeUrlKey` (the unused cacheIo helper) merges
the trailing slash but preserves the path's case and the tracking
parameter, so it fails both parts of the claim as well. -/
theorem url_key_canonicalization_counterexample :
    getUrlKey "https://Example.com/Path/" ≠ getUrlKey "https://example.com/path" ∧
    getUrlKey "https://example.com/path?utm_source=news" ≠
      getUrlKey "https://example.com/path" ∧
    canonicalizeUrlKey "https://Example.com/Path/" ≠
      canonicalizeUrlKey "https://example.com/path" ∧
    canonicalizeUrlKey "https://example.com/path?utm_source=news" ≠
      canonicalizeUrlKey "https://example.com/path" := by
  with_unfolding_all decide

/-- C9 (amended): `getUrlKey` only trims and lowercases — two URLs
differing only in letter case map to the same key, but a trailing slash or
a (tracking) query parameter yields a different key; `canonicalizeUrlKey`
additionally merges trailing-slash variants and sorts query parameters but
keeps the path's case and every query parameter. -/
theorem url_key_lowercase_only :
    getUrlKey "https://Example.com/Path/" = getUrlKey "https://example.com/path/" ∧
    getUrlKey "  https://example.com/path " = getUrlKey "https://example.com/path" ∧
    getUrlKey "https://example.com/path/" ≠ getUrlKey "https://example.com/path" ∧
    getUrlKey "https://example.com/path?utm_source=news" ≠
      getUrlKey "https://example.com/path" ∧
    canonicalizeUrlKey "https://example.com/path/" =
      canonicalizeUrlKey "https://example.com/path" ∧
    canonicalizeUrlKey "https://www.example.com:443/a//b?b=2&a=1" =
      "https://example.com/a/b?a=1&b=2" ∧
    canonicalizeUrlKey "https://Example.com/Path" ≠
      canonicalizeUrlKey "https://example.com/path" ∧
    canonicalizeUrlKey "https://example.com/path?utm_source=news" ≠
      canonicalizeUrlKey "https://example.com/path" := by
  with_unfolding_all decide

/-- The threshold/gap decision of `phase2Decide` on the sorted candidate
list, arm by arm. -/
theorem phase2Decide_spec (st : String) (sorted : List NotionPage) :
    (THRESHOLD_FOUND ≤ phase2BestScore sorted →
      (sorted.length = 1 ∨ GAP_AMBIGUOUS ≤ phase2Gap sorted) →
      (phase2Decide st sorted).decision.result = .FOUND ∧
      (phase2Decide st sorted).decision.notionId =
        (sorted.head?).map NotionPage.notion_id ∧
      (phase2Decide st sorted).candidates = sorted.take 5) ∧
    (THRESHOLD_FOUND ≤ phase2BestScore sorted → 2 ≤ sorted.length →
      phase2Gap sorted < GAP_AMBIGUOUS →
      (phase2Decide st sorted).decision.result = .AMBIGUOUS ∧
      (phase2Decide st sorted).candidates = sorted.take 5) ∧
    (phase2BestScore sorted < THRESHOLD_FOUND →
      (phase2Decide st sorted).decision.result = .NOTFOUND ∧
      (phase2Decide st sorted).candidates = sorted.take 5) := by
  match sorted with
  | [] =>
    have hb : phase2BestScore ([] : List NotionPage) = 0 := rfl
    refine ⟨?_, ?_, ?_⟩
    · intro h
      rw [hb] at h
      exact absurd h (by norm_num [THRESHOLD_FOUND])
    · intro _ h2
      exact absurd h2 (by simp)
    · intro _
      refine ⟨?_, ?_⟩ <;> simp [phase2Decide]
  | a :: tail =>
    have hb : phase2BestScore (a :: tail) = (a._score).getD 0 := rfl
    refine ⟨?_, ?_, ?_⟩
    · intro hBest hOne
      have hcond : 0 < (a :: tail).length ∧ THRESHOLD_FOUND ≤ phase2BestScore (a :: tail) :=
        ⟨by simp, hBest⟩
      have hinner : ¬ (1 < (a :: tail).length ∧
          phase2BestScore (a :: tail) - phase2SecondScore (a :: tail) < GAP_AMBIGUOUS) := by
        rcases hOne with h1 | hgap
        · intro hc
          rw [h1] at hc
          exact absurd hc.1 (by norm_num)
        · intro hc
          rw [← phase2Gap] at hc
          exact absurd hc.2 (not_lt.mpr hgap)
      refine ⟨?_, ?_, ?_⟩ <;>
        simp only [phase2Decide, if_pos hcond, if_neg hinner] <;> simp
    · intro hBest hLen hGap
      have hcond : 0 < (a :: tail).length ∧ THRESHOLD_FOUND ≤ phase2BestScore (a :: tail) :=
        ⟨by simp, hBest⟩
      have hinner : 1 < (a :: tail).length ∧
          phase2BestScore (a :: tail) - phase2SecondScore (a :: tail) < GAP_AMBIGUOUS := by
        constructor
        · simpa using hLen
        · rw [← phase2Gap]
          exact hGap
      refine ⟨?_, ?_⟩ <;>
        simp only [phase2Decide, if_pos hcond, if_pos hinner]
    · intro hlt
      have hcond : ¬ (0 < (a :: tail).length ∧
          THRESHOLD_FOUND ≤ phase2BestScore (a :: tail)) := by
        intro hc
        exact absurd hc.2 (not_le.mpr hlt)
      refine ⟨?_, ?_⟩ <;>
        simp only [phase2Decide, if_neg hcond]

/-- C1: for every identity with a usable search name and every catalog,
when the scoring pass takes no near-exact-title early exit and admits the
candidates `cs`: if the best sorted score clears THRESHOLD_FOUND = 0.48
and either exactly one candidate was admitted or the gap to the runner-up
is at least GAP_AMBIGUOUS = 0.15, the decision is FOUND on the best
candidate; if the best clears the threshold but two or more candidates
were admitted with gap below 0.15, the decision is AMBIGUOUS with the
top-5 candidates; otherwise (best below threshold) NOTFOUND with the
top-5 candidates. -/
theorem phase2_decision_rule (identity : Identity) (pages cs : List NotionPage)
    (hTitle : searchTitleOf identity ≠ "")
    (hScan : scanPages identity pages = ScanOut.scored cs) :
    (THRESHOLD_FOUND ≤ phase2BestScore (sortByScoreDesc cs) →
      (cs.length = 1 ∨ GAP_AMBIGUOUS ≤ phase2Gap (sortByScoreDesc cs)) →
      (searchNotionCache identity pages).decision.result = .FOUND ∧
      (searchNotionCache identity pages).decision.notionId =
        ((sortByScoreDesc cs).head?).map NotionPage.notion_id ∧
      (searchNotionCache identity pages).candidates = (sortByScoreDesc cs).take 5) ∧
    (THRESHOLD_FOUND ≤ phase2BestScore (sortByScoreDesc cs) → 2 ≤ cs.length →
      phase2Gap (sortByScoreDesc cs) < GAP_AMBIGUOUS →
      (searchNotionCache identity pages).decision.result = .AMBIGUOUS ∧
      (searchNotionCache identity pages).candidates = (sortByScoreDesc cs).take 5) ∧
    (phase2BestScore (sortByScoreDesc cs) < THRESHOLD_FOUND →
      (searchNotionCache identity pages).decision.result = .NOTFOUND ∧
      (searchNotionCache identity pages).candidates = (sortByScoreDesc cs).take 5) := by
  have hres : searchNotionCache identity pages =
      phase2Decide (searchTitleOf identity) (sortByScoreDesc cs) := by
    simp only [searchNotionCache, if_neg hTitle, hScan]
  have hlen : (sortByScoreDesc cs).length = cs.length :=
    List.length_insertionSort _ cs
  rw [hres, ← hlen]
  exact phase2Decide_spec (searchTitleOf identity) (sortByScoreDesc cs)

/-- Query identity for the concrete Phase 2 runs: page title "abcde". -/
def exIdentityAbcde : Identity :=
  { exIdentity with url := "https://z.com/abcde", pageTitle := some "abcde" }

/-- Catalog page titled "abcdx": title similarity with "abcde" is 0.8, so
the weighted score is 0.8 · 0.60 = 0.48 — exactly the found threshold. -/
def exPageAbcdx : NotionPage :=
  exPage "a1" "https://x.com/abcdx" (some "abcdx")

/-- The same page as the scoring pass admits it. -/
def exScoredAbcdx : NotionPage :=
  { exPageAbcdx with _score := some (12/25), _reasons := some ["title:80%"] }

/-- C1 (witness): the decision rule applied to a concrete one-candidate
scan whose score is exactly the 0.48 threshold — FOUND on that candidate. -/
theorem phase2_decision_rule_witness :
    (searchNotionCache exIdentityAbcde [exPageAbcdx]).decision.result = .FOUND ∧
    (searchNotionCache exIdentityAbcde [exPageAbcdx]).decision.notionId =
      ((sortByScoreDesc [exScoredAbcdx]).head?).map NotionPage.notion_id ∧
    (searchNotionCache exIdentityAbcde [exPageAbcdx]).candidates =
      (sortByScoreDesc [exScoredAbcdx]).take 5 :=
  (phase2_decision_rule exIdentityAbcde [exPageAbcdx] [exScoredAbcdx]
      (by with_unfolding_all decide) (by with_unfolding_all decide)).1
    (by with_unfolding_all decide) (Or.inl (by with_unfolding_all decide))

theorem intersectionSize_le_unionSize (A B : Finset String) :
    intersectionSize A B ≤ unionSize A B :=
  Finset.card_le_card Finset.inter_subset_union

theorem calculateSimilarity_le_one (s1 s2 : String) :
    calculateSimilarity s1 s2 ≤ 1 := by
  unfold calculateSimilarity
  by_cases h : (if s1.length > s2.length then s1 else s2).length = 0
  · simp [h]
  · rw [if_neg h]
    have hpos : (0 : ℚ) < ((if s1.length > s2.length then s1 else s2).length : ℚ) := by
      exact_mod_cast Nat.pos_of_ne_zero h
    rw [div_le_one hpos]
    have hd : (0 : ℚ) ≤
        (levenshteinDistance (if s1.length > s2.length then s1 else s2)
          (if s1.length > s2.length then s2 else s1) : ℚ) := by positivity
    linarith

theorem jaccard_le_one (A B : Finset String) :
    (intersectionSize A B : ℚ) / (unionSize A B : ℚ) ≤ 1 := by
  by_cases hu : 0 < unionSize A B
  · have hle : (intersectionSize A B : ℚ) ≤ (unionSize A B : ℚ) := by
      exact_mod_cast intersectionSize_le_unionSize A B
    have hpos : (0 : ℚ) < (unionSize A B : ℚ) := by exact_mod_cast hu
    rw [div_le_one hpos]
    exact hle
  · have hz : unionSize A B = 0 := by omega
    simp [hz]

theorem scoreTitlePart_fst_le (toks : Finset String) (nt : String) (ts : ℚ)
    (hts : ts ≤ 1) : (scoreTitlePart toks nt ts).1 ≤ 3/5 := by
  simp only [scoreTitlePart]
  split_ifs <;> dsimp only <;> simp only [W_TITLE] <;>
    nlinarith [jaccard_le_one toks (tokenize nt), hts]

theorem scoreCreatorPart_fst_le (sc nc : String) :
    (scoreCreatorPart sc nc).1 ≤ 1/20 := by
  simp only [scoreCreatorPart]
  split_ifs <;> dsimp only <;>
    first
      | (simp only [W_CREATOR]
         nlinarith [calculateSimilarity_le_one (normalizeTitle sc) (normalizeTitle nc)])
      | norm_num

theorem scoreSlugPart_fst_le (ss nt : String) :
    (scoreSlugPart ss nt).1 ≤ 1/5 := by
  simp only [scoreSlugPart]
  split_ifs <;> dsimp only <;>
    first
      | (simp only [W_SLUG]
         nlinarith [jaccard_le_one (tokenize ss) (tokenize nt)])
      | norm_num

theorem scoreDomainPart_fst_le (sd : String) (page : NotionPage) :
    (scoreDomainPart sd page).1 ≤ 1/20 := by
  simp only [scoreDomainPart]
  split_ifs <;> dsimp only <;> norm_num [DOMAIN_BONUS]

theorem scorePage_fst_le (sc sd ss : String) (toks : Finset String)
    (page : NotionPage) (nt : String) (ts : ℚ) (hts : ts ≤ 1) :
    (scorePage sc sd ss toks page nt ts).1 ≤ 9/10 := by
  have h1 := scoreTitlePart_fst_le toks nt ts hts
  have h2 := scoreCreatorPart_fst_le sc (truthyOr page.creator "")
  have h3 := scoreSlugPart_fst_le ss nt
  have h4 := scoreDomainPart_fst_le sd page
  simp only [scorePage]
  linarith

theorem scanGo_scored_bounds (st sc sd ss : String) (toks : Finset String) :
    ∀ (pages cs : List NotionPage),
      scanGo st sc sd ss toks pages = ScanOut.scored cs →
      ∀ c ∈ cs, THRESHOLD_CANDIDATE < scoreOf c ∧ scoreOf c ≤ 9/10 := by
  intro pages
  induction pages with
  | nil =>
    intro cs h c hc
    simp only [scanGo] at h
    injection h with h2
    subst h2
    exact absurd hc (List.not_mem_nil c)
  | cons page rest ih =>
    intro cs h c hc
    simp only [scanGo] at h
    by_cases ht : truthyOr page.title (truthyOr page.filename "") = ""
    · rw [if_pos ht] at h
      exact ih cs h c hc
    · rw [if_neg ht] at h
      by_cases he : (0.98 : ℚ) ≤ calculateSimilarity (normalizeTitle st)
          (normalizeTitle (truthyOr page.title (truthyOr page.filename "")))
      · rw [if_pos he] at h
        exact ScanOut.noConfusion h
      · rw [if_neg he] at h
        by_cases hth : THRESHOLD_CANDIDATE <
            (scorePage sc sd ss toks page (truthyOr page.title (truthyOr page.filename ""))
              (calculateSimilarity (normalizeTitle st)
                (normalizeTitle (truthyOr page.title (truthyOr page.filename ""))))).1
        · rw [if_pos hth] at h
          cases hrec : scanGo st sc sd ss toks rest with
          | earlyExit q =>
            rw [hrec] at h
            exact ScanOut.noConfusion h
          | scored cs2 =>
            rw [hrec] at h
            injection h with h2
            subst h2
            rcases List.mem_cons.mp hc with hc1 | hc2
            · subst hc1
              constructor
              · simpa [scoreOf] using hth
              · have hb := scorePage_fst_le sc sd ss toks page
                  (truthyOr page.title (truthyOr page.filename ""))
                  (calculateSimilarity (normalizeTitle st)
                    (normalizeTitle (truthyOr page.title (truthyOr page.filename ""))))
                  (calculateSimilarity_le_one _ _)
                simpa [scoreOf] using hb
            · exact ih cs2 hrec c hc2
        · rw [if_neg hth] at h
          exact ih cs h c hc

/-- C10: every candidate admitted by the weighted scoring path (no
near-exact-title early exit) has a score strictly above the admission
floor THRESHOLD_CANDIDATE = 0.28 and at most 0.90 — the sum of the maximal
factor contributions W_TITLE 0.60 + W_CREATOR 0.05 + W_SLUG 0.20 +
DOMAIN_BONUS 0.05 — so a weighted score never reaches 1. -/
theorem admitted_score_bounds (identity : Identity) (pages cs : List NotionPage)
    (hScan : scanPages identity pages = ScanOut.scored cs) :
    ∀ c ∈ cs, THRESHOLD_CANDIDATE < scoreOf c ∧ scoreOf c ≤ 9/10 := by
  unfold scanPages at hScan
  exact scanGo_scored_bounds _ _ _ _ _ pages cs hScan

/-- C10 (witness): the bounds at the concrete admitted candidate of the
"abcde"/"abcdx" run, whose score is exactly 0.48. -/
theorem admitted_score_bounds_witness :
    THRESHOLD_CANDIDATE < scoreOf exScoredAbcdx ∧ scoreOf exScoredAbcdx ≤ 9/10 :=
  admitted_score_bounds exIdentityAbcde [exPageAbcdx] [exScoredAbcdx]
    (by with_unfolding_all decide) exScoredAbcdx (by simp)

theorem sortPairs_eq_sortIds (cs : List NotionPage) :
    List.insertionSort (fun a b : String × Option ℚ => a.1 ≤ b.1)
      (cs.map (fun p => (p.notion_id, (none : Option ℚ)))) =
    (List.insertionSort (fun a b : String => a ≤ b) (cs.map NotionPage.notion_id)).map
      (fun id => (id, (none : Option ℚ))) := by
  rw [List.map_insertionSort (fun a b : String => a ≤ b)
    (fun a b : String × Option ℚ => a.1 ≤ b.1)
    (fun id => (id, (none : Option ℚ))) (cs.map NotionPage.notion_id)
    (fun a _ b _ => Iff.rfl)]
  rw [List.map_map]
  rfl

theorem insertionSortStrings_perm_eq {l₁ l₂ : List String} (h : l₁.Perm l₂) :
    List.insertionSort (fun a b : String => a ≤ b) l₁ =
    List.insertionSort (fun a b : String => a ≤ b) l₂ := by
  apply List.eq_of_perm_of_sorted
    ((List.perm_insertionSort _ l₁).trans (h.trans (List.perm_insertionSort _ l₂).symm))
    (List.sorted_insertionSort _ l₁) (List.sorted_insertionSort _ l₂)

theorem buildEvidenceKeyPayload_candidates_default (identity : Identity)
    (cs : List NotionPage) (pv : String) :
    (buildEvidenceKeyPayload identity cs pv none false false).candidates =
    (List.insertionSort (fun a b : String => a ≤ b) (cs.map NotionPage.notion_id)).map
      (fun id => (id, (none : Option ℚ))) := by
  simp only [buildEvidenceKeyPayload, getNotionId, Bool.false_eq_true, false_and,
    if_false, ← sortPairs_eq_sortIds]

/-- The evidence key depends only on the noise-stripped identity fields,
the blocked flag and the sorted candidate-id list (with the default
options of the pipeline: no creator, no scores, no stamp). -/
theorem buildEvidenceKey_eq_of (identity₁ identity₂ : Identity)
    (cs₁ cs₂ : List NotionPage) (pv : String)
    (hname : stripNonDiscriminativeNoise (primaryNameOf identity₁) =
      stripNonDiscriminativeNoise (primaryNameOf identity₂))
    (hdom : stripNonDiscriminativeNoise identity₁.domain =
      stripNonDiscriminativeNoise identity₂.domain)
    (hslug : stripNonDiscriminativeNoise identity₁.urlSlug =
      stripNonDiscriminativeNoise identity₂.urlSlug)
    (hblocked : identity₁.isBlocked = identity₂.isBlocked)
    (hids : List.insertionSort (fun a b : String => a ≤ b) (cs₁.map NotionPage.notion_id) =
      List.insertionSort (fun a b : String => a ≤ b) (cs₂.map NotionPage.notion_id)) :
    buildEvidenceKey identity₁ cs₁ pv = buildEvidenceKey identity₂ cs₂ pv := by
  unfold buildEvidenceKey CacheEngine.buildEvidenceKey
  have hp : buildEvidenceKeyPayload identity₁ cs₁ pv none false false =
      buildEvidenceKeyPayload identity₂ cs₂ pv none false false := by
    have hc₁ := buildEvidenceKeyPayload_candidates_default identity₁ cs₁ pv
    have hc₂ := buildEvidenceKeyPayload_candidates_default identity₂ cs₂ pv
    have hcand : (buildEvidenceKeyPayload identity₁ cs₁ pv none false false).candidates =
        (buildEvidenceKeyPayload identity₂ cs₂ pv none false false).candidates := by
      rw [hc₁, hc₂, hids]
    revert hcand
    simp only [buildEvidenceKeyPayload, EvidenceKeyPayload.mk.injEq,
      IdentityKeyMaterial.mk.injEq, Bool.false_eq_true, false_and, if_false]
    intro hcand
    refine ⟨?_, ⟨hdom, hname, hslug, hblocked, ?_⟩, hcand, ?_⟩ <;> trivial
  rw [hp]

/-- Identity carrying case, whitespace, version and adjective noise in its
name, domain and slug. -/
def exIdentityNoisy : Identity :=
  { exIdentity with
    url := "https://a.com/x?utm_source=1"
    domain := "ModSite.COM"
    urlSlug := "cool-pack-v2"
    pageTitle := some "Cool  Pack V2 UPDATED" }

/-- The same identity with the noise removed. -/
def exIdentityClean : Identity :=
  { exIdentity with
    url := "https://b.org/y"
    domain := "modsite.com"
    urlSlug := "cool-pack-v10"
    pageTitle := some "cool pack" }

/-- C6: the evidence key is a deterministic function invariant under the
raw query URL (both the unused URL argument and the identity's url field),
under permutation of the candidate list, under any change of the
candidates' floating scores (excluded by default), and it depends only on
the noise-stripped (lowercased, whitespace-collapsed, version- and
adjective-tag-free) name, domain and slug plus the blocked flag; a
concrete pair differing only in case/whitespace/version/adjective noise,
candidate order, score noise and raw URL collides to the same key. -/
theorem evidence_key_stability :
    (∀ u₁ u₂ identity cs, mainEvidenceKey u₁ identity cs = mainEvidenceKey u₂ identity cs) ∧
    (∀ u identity u2 cs,
      mainEvidenceKey u { identity with url := u2 } cs = mainEvidenceKey u identity cs) ∧
    (∀ u identity cs₁ cs₂, cs₁.Perm cs₂ →
      mainEvidenceKey u identity cs₁ = mainEvidenceKey u identity cs₂) ∧
    (∀ u identity cs (g : NotionPage → Option ℚ),
      mainEvidenceKey u identity (cs.map fun c => { c with _score := g c }) =
        mainEvidenceKey u identity cs) ∧
    (∀ u identity₁ identity₂ cs,
      stripNonDiscriminativeNoise (primaryNameOf identity₁) =
        stripNonDiscriminativeNoise (primaryNameOf identity₂) →
      stripNonDiscriminativeNoise identity₁.domain =
        stripNonDiscriminativeNoise identity₂.domain →
      stripNonDiscriminativeNoise identity₁.urlSlug =
        stripNonDiscriminativeNoise identity₂.urlSlug →
      identity₁.isBlocked = identity₂.isBlocked →
      mainEvidenceKey u identity₁ cs = mainEvidenceKey u identity₂ cs) ∧
    mainEvidenceKey "https://a.com/x?utm_source=1" exIdentityNoisy
      [{ exPage "n2" "" none with _score := some (7/10) }, exPage "n1" "" none] =
      mainEvidenceKey "https://b.org/y" exIdentityClean
        [exPage "n1" "" none, exPage "n2" "" none] := by
  refine ⟨fun u₁ u₂ identity cs => rfl, fun u identity u2 cs => rfl, ?_, ?_, ?_, ?_⟩
  · intro u identity cs₁ cs₂ h
    exact buildEvidenceKey_eq_of identity identity cs₁ cs₂ POLICY_VERSION rfl rfl rfl rfl
      (insertionSortStrings_perm_eq (h.map NotionPage.notion_id))
  · intro u identity cs g
    refine buildEvidenceKey_eq_of identity identity _ cs POLICY_VERSION rfl rfl rfl rfl ?_
    have hmap : (cs.map fun c => { c with _score := g c }).map NotionPage.notion_id =
        cs.map NotionPage.notion_id := by
      rw [List.map_map]
      rfl
    rw [hmap]
  · intro u identity₁ identity₂ cs hname hdom hslug hblocked
    exact buildEvidenceKey_eq_of identity₁ identity₂ cs cs POLICY_VERSION
      hname hdom hslug hblocked rfl
  · refine buildEvidenceKey_eq_of exIdentityNoisy exIdentityClean _ _ POLICY_VERSION
      (by with_unfolding_all decide) (by with_unfolding_all decide)
      (by with_unfolding_all decide) (by with_unfolding_all decide)
      (by with_unfolding_all decide)

/-- C6 (witness): the stability theorem applied at concrete inputs — a
concrete two-candidate permutation and a concrete noisy/clean identity
pair produce equal keys. -/
theorem evidence_key_stability_witness :
    mainEvidenceKey "u" exIdentityClean [exPage "n1" "" none, exPage "n2" "" none] =
      mainEvidenceKey "u" exIdentityClean [exPage "n2" "" none, exPage "n1" "" none] ∧
    mainEvidenceKey "u" exIdentityNoisy [exPage "n1" "" none] =
      mainEvidenceKey "u" exIdentityClean [exPage "n1" "" none] :=
  ⟨evidence_key_stability.2.2.1 "u" exIdentityClean _ _ (by with_unfolding_all decide),
   evidence_key_stability.2.2.2.2.1 "u" exIdentityNoisy exIdentityClean _
     (by with_unfolding_all decide) (by with_unfolding_all decide)
     (by with_unfolding_all decide) (by with_unfolding_all decide)⟩

end ModAnalyzer
